import Mathlib

/-!
# Verification of the mod_voice_detector per-session state machine

This file gives a shallow embedding of the voice-activity-detection logic of
`src/mod_voice_detector/mod_voice_detector.c` and proves (or refutes) the
specification claims about it.

Embedding conventions:
* C `int` / `switch_time_t` values are modelled as `Int` (all quantities the
  claims touch stay far from 32/64-bit overflow); the C truncating integer
  division `/` is modelled by `Int.tdiv`.
* The C `float` energy value and `energy_threshold` are modelled as exact
  rationals; the detection logic only compares them and scales by 1000.
* The energy computation itself (`sqrt(energy/samples)/32768.0f`,
  lines 434-438) is modelled over the reals in `energyScore` below.
* The two external side-effecting facilities
  (`switch_core_session_record_start` / `switch_core_session_record_stop`)
  are modelled by per-frame boolean success inputs `startOk` / `stopOk`.
* `voice_detector_api_call` dispatches a notification; we model the list of
  notifications actually dispatched during a frame as `Output.events`, and the
  invocations of `voice_detector_start_recording` /
  `voice_detector_stop_recording` (the recording directives) as the two
  boolean fields of `Output`.
-/

namespace VoiceDetector

/-- The fields of the process-wide `voice_detector_global_t` that the
callback logic reads (lines 38-40 of the C source). -/
structure Globals where
  frame_size : Int
  sample_rate : Int
  debounce_ms : Int
deriving DecidableEq

/-- The fields of `voice_detector_runtime_params_t` that the callback logic
reads (lines 8-25 of the C source).  `auto_record` is an `int` used as a
boolean in C. -/
structure RuntimeParams where
  hits : Int
  energy_threshold : Rat
  min_word_length : Int
  maximum_word_length : Int
  between_words_silence : Int
  max_silence : Int
  auto_record : Bool
deriving DecidableEq

/-- The mutable per-session fields of `voice_detector_session_t`
(lines 47-71) that the callback logic reads or writes.  `record_session`
models whether the recording-session handle is non-NULL, `recording_file`
whether a filename is stored. -/
structure SessionState where
  voice_detected : Bool
  consecutive_hits : Int
  silence_frames : Int
  current_word_length : Int
  word_start_time : Int
  word_end_time : Int
  last_voice_time : Int
  last_api_call_time : Int
  total_frames : Int
  is_recording : Bool
  record_session : Bool
  recording_file : Bool
  recording_start_time : Int
  recording_duration : Int
deriving DecidableEq

/-- A notification dispatched by `voice_detector_api_call`; the constructor
corresponds to the `voice_detected` event code passed at each call site
(1 = voice started, 0 = voice ended, 2 = recording started,
3 = recording stopped, 4 = word detected). -/
inductive Event where
  | voiceStart (energy_level : Int)
  | voiceEnd (energy_level : Int)
  | recordingStarted
  | recordingStopped (duration : Int)
  | wordDetected (duration : Int)
deriving DecidableEq

/-- Returns true exactly on the two event kinds subject to the debounce window. -/
def Event.isVoice : Event → Bool
  | .voiceStart _ => true
  | .voiceEnd _ => true
  | _ => false

/-- Returns true exactly on voiceStart events. -/
def Event.isVoiceStart : Event → Bool
  | .voiceStart _ => true
  | _ => false

/-- Returns true exactly on voiceEnd events. -/
def Event.isVoiceEnd : Event → Bool
  | .voiceEnd _ => true
  | _ => false

/-- Returns true exactly on wordDetected events. -/
def Event.isWordDetected : Event → Bool
  | .wordDetected _ => true
  | _ => false

/-- What one invocation of the callback produces besides the new session
state: the dispatched notifications (in dispatch order) and whether the
start- or stop-recording directive (`voice_detector_start_recording` /
`voice_detector_stop_recording`) was invoked during the frame. -/
structure Output where
  events : List Event
  startDirective : Bool
  stopDirective : Bool
deriving DecidableEq

/-- Milliseconds represented by one frame:
`globals->frame_size * 1000 / globals->sample_rate` in C `int` arithmetic
(lines 473 and 489). -/
def frameMs (g : Globals) : Int :=
  (g.frame_size * 1000).tdiv g.sample_rate

/-- The `energy_level` integer passed to `voice_detector_api_call`:
`(int)(energy * 1000)` (lines 455 and 498); the cast truncates
toward zero, which on an exact rational is `num.tdiv den`. -/
def payload (energy : Rat) : Int :=
  (energy * 1000).num.tdiv ((energy * 1000).den : Int)

/-- The sum of squared sample values accumulated by the loop at
lines 435-437 (`energy += audio_data[i] * audio_data[i]`), as an exact
integer. -/
def sumSquares (frame : List Int) : Int :=
  (frame.map (fun x => x * x)).sum

/-- The normalized energy score of a frame of signed 16-bit PCM samples:
`sqrt(energy / samples) / 32768.0f` (line 438), modelled over the reals. -/
noncomputable def energyScore (frame : List Int) : ℝ :=
  Real.sqrt ((sumSquares frame : ℝ) / (frame.length : ℝ)) / 32768

/-- Model of `voice_detector_start_recording` (lines 334-384).  Filename synthesis
always succeeds in the C code; `startOk` models the outcome of the external
`switch_core_session_record_start`.  Returns the updated state and the
notifications dispatched. -/
def voice_detector_start_recording (p : RuntimeParams) (now : Int)
    (startOk : Bool) (s : SessionState) : SessionState × List Event :=
  if !p.auto_record || s.is_recording then (s, [])
  else if startOk then
    ({ s with recording_file := true, is_recording := true,
              record_session := true, recording_start_time := now,
              recording_duration := 0 },
     [Event.recordingStarted])
  else (s, [])

/-- Model of `voice_detector_stop_recording` (lines 387-417).  The duration is
computed and stored before the external `switch_core_session_record_stop`
(modelled by `stopOk`) is invoked; on failure the function returns early
without clearing `is_recording` or `record_session`. -/
def voice_detector_stop_recording (now : Int) (stopOk : Bool)
    (s : SessionState) : SessionState × List Event :=
  if !s.is_recording || !s.record_session then (s, [])
  else
    let dur := (now - s.recording_start_time).tdiv 1000000
    let s1 := { s with recording_duration := dur }
    if stopOk then
      ({ s1 with record_session := false, is_recording := false },
       [Event.recordingStopped dur])
    else (s1, [])

/-- Model of `voice_detector_callback` (lines 420-520), after the energy has been
computed: the per-frame transition of the detection state machine.
`now` is `switch_micro_time_now()` in microseconds, `energy` the computed
score, `startOk`/`stopOk` the external recording facility outcomes. -/
def voice_detector_callback (g : Globals) (p : RuntimeParams) (now : Int)
    (energy : Rat) (startOk stopOk : Bool) (s0 : SessionState) :
    SessionState × Output :=
  let s := { s0 with total_frames := s0.total_frames + 1 }
  if p.energy_threshold < energy then
    if s.voice_detected then
      -- voice is continuing (lines 470-482)
      let s1 := { s with consecutive_hits := 0,
                         current_word_length := s.current_word_length + frameMs g }
      if p.maximum_word_length < s1.current_word_length then
        let s2 := { s1 with voice_detected := false, consecutive_hits := 0 }
        let r := voice_detector_stop_recording now stopOk s2
        (r.1, ⟨r.2, false, true⟩)
      else
        (s1, ⟨[], false, false⟩)
    else
      -- voice start detection (lines 449-469)
      let s1 := { s with consecutive_hits := s.consecutive_hits + 1 }
      if g.debounce_ms * 1000 < now - s1.last_api_call_time then
        let s2 := { s1 with last_api_call_time := now }
        if p.hits ≤ s2.consecutive_hits then
          let s3 := { s2 with voice_detected := true, last_voice_time := now,
                              silence_frames := 0, word_start_time := now,
                              current_word_length := 0 }
          let r := voice_detector_start_recording p now startOk s3
          (r.1, ⟨Event.voiceStart (payload energy) :: r.2, true, false⟩)
        else
          (s2, ⟨[Event.voiceStart (payload energy)], false, false⟩)
      else
        if p.hits ≤ s1.consecutive_hits then
          let s3 := { s1 with voice_detected := true, last_voice_time := now,
                              silence_frames := 0, word_start_time := now,
                              current_word_length := 0 }
          let r := voice_detector_start_recording p now startOk s3
          (r.1, ⟨r.2, true, false⟩)
        else
          (s1, ⟨[], false, false⟩)
  else
    if s.voice_detected then
      -- silence while voicing (lines 484-516)
      let s1 := { s with silence_frames := s.silence_frames + 1,
                         consecutive_hits := 0 }
      if p.max_silence < s1.silence_frames * frameMs g then
        let s2 := { s1 with voice_detected := false }
        let r := voice_detector_stop_recording now stopOk s2
        if g.debounce_ms * 1000 < now - r.1.last_api_call_time then
          ({ r.1 with last_api_call_time := now },
           ⟨r.2 ++ [Event.voiceEnd (payload energy)], false, true⟩)
        else
          (r.1, ⟨r.2, false, true⟩)
      else if p.between_words_silence < s1.silence_frames * frameMs g then
        if p.min_word_length ≤ s1.current_word_length then
          ({ s1 with word_end_time := now, word_start_time := now,
                     current_word_length := 0 },
           ⟨[Event.wordDetected ((now - s1.word_start_time).tdiv 1000000)],
            false, false⟩)
        else (s1, ⟨[], false, false⟩)
      else (s1, ⟨[], false, false⟩)
    else
      -- below threshold and not voicing: the C code does nothing
      (s, ⟨[], false, false⟩)

/-- One input frame, reduced to what the callback consumes: arrival time,
energy score, and the outcomes of the external recording facility should it
be invoked during the frame. -/
structure FrameIn where
  now : Int
  energy : Rat
  startOk : Bool
  stopOk : Bool
deriving DecidableEq

/-- Process a list of frames in order, collecting each frame's output. -/
def runSteps (g : Globals) (p : RuntimeParams) :
    List FrameIn → SessionState → SessionState × List Output
  | [], s => (s, [])
  | f :: fs, s =>
      let r := voice_detector_callback g p f.now f.energy f.startOk f.stopOk s
      let r2 := runSteps g p fs r.1
      (r2.1, r.2 :: r2.2)

@[simp] theorem runSteps_nil (g : Globals) (p : RuntimeParams)
    (s : SessionState) : runSteps g p [] s = (s, []) := rfl

theorem runSteps_cons (g : Globals) (p : RuntimeParams) (f : FrameIn)
    (fs : List FrameIn) (s : SessionState) :
    runSteps g p (f :: fs) s =
      ((runSteps g p fs
          (voice_detector_callback g p f.now f.energy f.startOk f.stopOk s).1).1,
       (voice_detector_callback g p f.now f.energy f.startOk f.stopOk s).2 ::
       (runSteps g p fs
          (voice_detector_callback g p f.now f.energy f.startOk f.stopOk s).1).2) := rfl

/-- The default globals set in `voice_detector_parse_config`
(lines 205-212): frame_size 160, sample_rate 8000, debounce_ms 500. -/
def defaultGlobals : Globals := ⟨160, 8000, 500⟩

/-- The default runtime parameters set in
`voice_detector_parse_runtime_params` (lines 91-106). -/
def defaultParams : RuntimeParams :=
  { hits := 2, energy_threshold := mkRat 1 20, min_word_length := 100,
    maximum_word_length := 3500, between_words_silence := 50,
    max_silence := 2000, auto_record := true }

/-- The freshly initialized session state of
`voice_detector_app_function` (lines 677-692). -/
def initialState : SessionState :=
  { voice_detected := false, consecutive_hits := 0, silence_frames := 0,
    current_word_length := 0, word_start_time := 0, word_end_time := 0,
    last_voice_time := 0, last_api_call_time := 0, total_frames := 0,
    is_recording := false, record_session := false, recording_file := false,
    recording_start_time := 0, recording_duration := 0 }

/-! ## Basic facts about the recording operations -/

@[simp] theorem start_recording_voice_detected (p : RuntimeParams) (now : Int)
    (ok : Bool) (s : SessionState) :
    (voice_detector_start_recording p now ok s).1.voice_detected = s.voice_detected := by
  unfold voice_detector_start_recording; split_ifs <;> rfl

@[simp] theorem start_recording_consecutive_hits (p : RuntimeParams) (now : Int)
    (ok : Bool) (s : SessionState) :
    (voice_detector_start_recording p now ok s).1.consecutive_hits = s.consecutive_hits := by
  unfold voice_detector_start_recording; split_ifs <;> rfl

@[simp] theorem start_recording_silence_frames (p : RuntimeParams) (now : Int)
    (ok : Bool) (s : SessionState) :
    (voice_detector_start_recording p now ok s).1.silence_frames = s.silence_frames := by
  unfold voice_detector_start_recording; split_ifs <;> rfl

@[simp] theorem start_recording_current_word_length (p : RuntimeParams) (now : Int)
    (ok : Bool) (s : SessionState) :
    (voice_detector_start_recording p now ok s).1.current_word_length = s.current_word_length := by
  unfold voice_detector_start_recording; split_ifs <;> rfl

@[simp] theorem start_recording_word_start_time (p : RuntimeParams) (now : Int)
    (ok : Bool) (s : SessionState) :
    (voice_detector_start_recording p now ok s).1.word_start_time = s.word_start_time := by
  unfold voice_detector_start_recording; split_ifs <;> rfl

@[simp] theorem start_recording_word_end_time (p : RuntimeParams) (now : Int)
    (ok : Bool) (s : SessionState) :
    (voice_detector_start_recording p now ok s).1.word_end_time = s.word_end_time := by
  unfold voice_detector_start_recording; split_ifs <;> rfl

@[simp] theorem start_recording_last_api_call_time (p : RuntimeParams) (now : Int)
    (ok : Bool) (s : SessionState) :
    (voice_detector_start_recording p now ok s).1.last_api_call_time = s.last_api_call_time := by
  unfold voice_detector_start_recording; split_ifs <;> rfl

@[simp] theorem start_recording_last_voice_time (p : RuntimeParams) (now : Int)
    (ok : Bool) (s : SessionState) :
    (voice_detector_start_recording p now ok s).1.last_voice_time = s.last_voice_time := by
  unfold voice_detector_start_recording; split_ifs <;> rfl

@[simp] theorem start_recording_total_frames (p : RuntimeParams) (now : Int)
    (ok : Bool) (s : SessionState) :
    (voice_detector_start_recording p now ok s).1.total_frames = s.total_frames := by
  unfold voice_detector_start_recording; split_ifs <;> rfl

theorem start_recording_events_sub (p : RuntimeParams) (now : Int)
    (ok : Bool) (s : SessionState) :
    ∀ e ∈ (voice_detector_start_recording p now ok s).2, e = Event.recordingStarted := by
  unfold voice_detector_start_recording; split_ifs <;> simp

@[simp] theorem stop_recording_voice_detected (now : Int) (ok : Bool) (s : SessionState) :
    (voice_detector_stop_recording now ok s).1.voice_detected = s.voice_detected := by
  unfold voice_detector_stop_recording; split_ifs <;> rfl

@[simp] theorem stop_recording_consecutive_hits (now : Int) (ok : Bool) (s : SessionState) :
    (voice_detector_stop_recording now ok s).1.consecutive_hits = s.consecutive_hits := by
  unfold voice_detector_stop_recording; split_ifs <;> rfl

@[simp] theorem stop_recording_silence_frames (now : Int) (ok : Bool) (s : SessionState) :
    (voice_detector_stop_recording now ok s).1.silence_frames = s.silence_frames := by
  unfold voice_detector_stop_recording; split_ifs <;> rfl

@[simp] theorem stop_recording_current_word_length (now : Int) (ok : Bool) (s : SessionState) :
    (voice_detector_stop_recording now ok s).1.current_word_length = s.current_word_length := by
  unfold voice_detector_stop_recording; split_ifs <;> rfl

@[simp] theorem stop_recording_word_start_time (now : Int) (ok : Bool) (s : SessionState) :
    (voice_detector_stop_recording now ok s).1.word_start_time = s.word_start_time := by
  unfold voice_detector_stop_recording; split_ifs <;> rfl

@[simp] theorem stop_recording_word_end_time (now : Int) (ok : Bool) (s : SessionState) :
    (voice_detector_stop_recording now ok s).1.word_end_time = s.word_end_time := by
  unfold voice_detector_stop_recording; split_ifs <;> rfl

@[simp] theorem stop_recording_last_api_call_time (now : Int) (ok : Bool) (s : SessionState) :
    (voice_detector_stop_recording now ok s).1.last_api_call_time = s.last_api_call_time := by
  unfold voice_detector_stop_recording; split_ifs <;> rfl

@[simp] theorem stop_recording_last_voice_time (now : Int) (ok : Bool) (s : SessionState) :
    (voice_detector_stop_recording now ok s).1.last_voice_time = s.last_voice_time := by
  unfold voice_detector_stop_recording; split_ifs <;> rfl

@[simp] theorem stop_recording_total_frames (now : Int) (ok : Bool) (s : SessionState) :
    (voice_detector_stop_recording now ok s).1.total_frames = s.total_frames := by
  unfold voice_detector_stop_recording; split_ifs <;> rfl

theorem stop_recording_events_sub (now : Int) (ok : Bool) (s : SessionState) :
    ∀ e ∈ (voice_detector_stop_recording now ok s).2,
      e = Event.recordingStopped ((now - s.recording_start_time).tdiv 1000000) := by
  unfold voice_detector_stop_recording; split_ifs <;> simp

/-! ## Single-frame branch lemmas for the callback -/

/-- Idle (not voicing) frame at or below the threshold: the C code takes no
action at all; in particular `consecutive_hits` is retained. -/
theorem callback_below_idle (g : Globals) (p : RuntimeParams) (now : Int)
    (energy : Rat) (startOk stopOk : Bool) (s : SessionState)
    (hvd : s.voice_detected = false) (he : energy ≤ p.energy_threshold) :
    voice_detector_callback g p now energy startOk stopOk s =
      ({ s with total_frames := s.total_frames + 1 }, ⟨[], false, false⟩) := by
  have he2 : ¬ p.energy_threshold < energy := not_lt.mpr he
  simp [voice_detector_callback, he2, hvd]

/-- Above-threshold frame while idle that does not yet reach the hit count:
the hit counter advances, voice stays undetected, no recording directive. -/
theorem callback_above_noconfirm (g : Globals) (p : RuntimeParams) (now : Int)
    (energy : Rat) (startOk stopOk : Bool) (s : SessionState)
    (hvd : s.voice_detected = false) (he : p.energy_threshold < energy)
    (hlt : s.consecutive_hits + 1 < p.hits) :
    (voice_detector_callback g p now energy startOk stopOk s).1.voice_detected = false ∧
    (voice_detector_callback g p now energy startOk stopOk s).1.consecutive_hits
      = s.consecutive_hits + 1 ∧
    (voice_detector_callback g p now energy startOk stopOk s).2.startDirective = false := by
  have h2 : ¬ (p.hits ≤ s.consecutive_hits + 1) := by omega
  simp only [voice_detector_callback]
  split_ifs <;> simp_all

/-- Above-threshold frame while idle that reaches the hit count: voice is
confirmed with the documented field resets and a start-recording directive. -/
theorem callback_above_confirm (g : Globals) (p : RuntimeParams) (now : Int)
    (energy : Rat) (startOk stopOk : Bool) (s : SessionState)
    (hvd : s.voice_detected = false) (he : p.energy_threshold < energy)
    (hge : p.hits ≤ s.consecutive_hits + 1) :
    (voice_detector_callback g p now energy startOk stopOk s).1.voice_detected = true ∧
    (voice_detector_callback g p now energy startOk stopOk s).1.silence_frames = 0 ∧
    (voice_detector_callback g p now energy startOk stopOk s).1.word_start_time = now ∧
    (voice_detector_callback g p now energy startOk stopOk s).1.current_word_length = 0 ∧
    (voice_detector_callback g p now energy startOk stopOk s).2.startDirective = true := by
  simp only [voice_detector_callback]
  split_ifs <;> simp_all

/-! ## Runs of frames -/

theorem runSteps_append (g : Globals) (p : RuntimeParams) (xs ys : List FrameIn)
    (s : SessionState) :
    runSteps g p (xs ++ ys) s =
      ((runSteps g p ys (runSteps g p xs s).1).1,
       (runSteps g p xs s).2 ++ (runSteps g p ys (runSteps g p xs s).1).2) := by
  induction xs generalizing s with
  | nil => simp
  | cons x xs ih =>
      rw [List.cons_append, runSteps_cons, runSteps_cons, ih]
      rfl

/-- A run of above-threshold frames from an idle state that stays strictly
below the hit count keeps voice undetected and advances the hit counter by
the number of frames. -/
theorem run_above_noconfirm (g : Globals) (p : RuntimeParams) (fs : List FrameIn) :
    ∀ s : SessionState, s.voice_detected = false →
    (∀ f ∈ fs, p.energy_threshold < f.energy) →
    s.consecutive_hits + (fs.length : Int) < p.hits →
    (runSteps g p fs s).1.voice_detected = false ∧
    (runSteps g p fs s).1.consecutive_hits = s.consecutive_hits + (fs.length : Int) := by
  induction fs with
  | nil => intro s hvd _ _; simpa using hvd
  | cons f fs ih =>
      intro s hvd hall hlt
      have he : p.energy_threshold < f.energy := hall f (List.mem_cons_self f fs)
      have hlt1 : s.consecutive_hits + 1 < p.hits := by
        have : (0 : Int) ≤ (fs.length : Int) := Int.natCast_nonneg _
        simp only [List.length_cons] at hlt
        push_cast at hlt
        omega
      obtain ⟨h1, h2, h3⟩ := callback_above_noconfirm g p f.now f.energy f.startOk f.stopOk s hvd he hlt1
      rw [runSteps_cons]
      have hrec := ih (voice_detector_callback g p f.now f.energy f.startOk f.stopOk s).1 h1
        (fun x hx => hall x (List.mem_cons_of_mem f hx))
        (by rw [h2]; simp only [List.length_cons] at hlt; push_cast at hlt ⊢; omega)
      refine ⟨hrec.1, ?_⟩
      rw [hrec.2, h2]
      simp only [List.length_cons]
      push_cast
      omega

/-- A run of at-or-below-threshold frames from an idle state leaves the
state unchanged apart from the frame counter and dispatches nothing. -/
theorem run_below_idle (g : Globals) (p : RuntimeParams) (fs : List FrameIn) :
    ∀ s : SessionState, s.voice_detected = false →
    (∀ f ∈ fs, f.energy ≤ p.energy_threshold) →
    (runSteps g p fs s).1 = { s with total_frames := s.total_frames + (fs.length : Int) } ∧
    ∀ o ∈ (runSteps g p fs s).2, o = ⟨[], false, false⟩ := by
  induction fs with
  | nil => intro s _ _; simp
  | cons f fs ih =>
      intro s hvd hall
      have hstep := callback_below_idle g p f.now f.energy f.startOk f.stopOk s hvd
        (hall f (List.mem_cons_self f fs))
      rw [runSteps_cons, hstep]
      have hrec := ih { s with total_frames := s.total_frames + 1 } hvd
        (fun x hx => hall x (List.mem_cons_of_mem f hx))
      constructor
      · rw [hrec.1]
        simp only [List.length_cons]
        push_cast
        congr 1
        omega
      · intro o ho
        rcases List.mem_cons.mp ho with h | h
        · exact h
        · exact hrec.2 o h

/-! ## Claim C1 -/

/-- C1: starting from the idle state (voice_detected = false,
consecutive_hits = 0), feeding `hits` consecutive frames whose energy score
strictly exceeds `energy_threshold` sets `voice_detected = true` exactly on
the `hits`-th such frame and never on an earlier frame; on that confirming
frame it also resets `silence_frames` to 0, sets `word_start_time` to the
current time, sets `current_word_length` to 0, and issues a start-recording
directive. -/
theorem claim_C1_voice_confirmation (g : Globals) (p : RuntimeParams)
    (fs : List FrameIn) (s : SessionState)
    (hvd : s.voice_detected = false) (hch : s.consecutive_hits = 0)
    (hhits : 1 ≤ p.hits) (hlen : (fs.length : Int) = p.hits)
    (hall : ∀ f ∈ fs, p.energy_threshold < f.energy) :
    (∀ k : Nat, k < fs.length →
        (runSteps g p (fs.take k) s).1.voice_detected = false) ∧
    (runSteps g p fs s).1.voice_detected = true ∧
    (runSteps g p fs s).1.silence_frames = 0 ∧
    (runSteps g p fs s).1.current_word_length = 0 ∧
    (∀ pre f, fs = pre ++ [f] →
        (runSteps g p fs s).1.word_start_time = f.now ∧
        ∃ o, (runSteps g p fs s).2.getLast? = some o ∧ o.startDirective = true) := by
  -- every proper prefix keeps voice undetected
  have hpre : ∀ k : Nat, k < fs.length →
      (runSteps g p (fs.take k) s).1.voice_detected = false ∧
      (runSteps g p (fs.take k) s).1.consecutive_hits = (k : Int) := by
    intro k hk
    have h := run_above_noconfirm g p (fs.take k) s hvd
      (fun f hf => hall f (List.mem_of_mem_take hf))
      (by
        rw [hch, List.length_take, min_eq_left (Nat.le_of_lt hk)]
        omega)
    rw [hch, List.length_take, min_eq_left (Nat.le_of_lt hk)] at h
    simpa using h
  -- fs is nonempty, so it decomposes as pre ++ [f]
  have hne : fs ≠ [] := by
    intro h
    rw [h] at hlen
    simp at hlen
    omega
  obtain ⟨pre, f, hdec⟩ : ∃ pre f, fs = pre ++ [f] := by
    rcases List.eq_nil_or_concat fs with h | ⟨pre, f, h⟩
    · exact absurd h hne
    · exact ⟨pre, f, by simpa [List.concat_eq_append] using h⟩
  have hprelen : (pre.length : Int) = p.hits - 1 := by
    have := hlen
    rw [hdec] at this
    simp at this
    omega
  have hprelt : pre.length < fs.length := by
    rw [hdec]
    simp
  have hsp := hpre pre.length hprelt
  rw [hdec, List.take_left] at hsp
  have he : p.energy_threshold < f.energy := by
    refine hall f ?_
    rw [hdec]
    exact List.mem_append_right pre (List.mem_cons_self f [])
  have hge : p.hits ≤ (runSteps g p pre s).1.consecutive_hits + 1 := by
    rw [hsp.2, hprelen]
    omega
  have hconf := callback_above_confirm g p f.now f.energy f.startOk f.stopOk
    (runSteps g p pre s).1 hsp.1 he hge
  have hfinal : runSteps g p fs s =
      ((voice_detector_callback g p f.now f.energy f.startOk f.stopOk
          (runSteps g p pre s).1).1,
       (runSteps g p pre s).2 ++
         [(voice_detector_callback g p f.now f.energy f.startOk f.stopOk
             (runSteps g p pre s).1).2]) := by
    rw [hdec, runSteps_append]
    rfl
  refine ⟨fun k hk => (hpre k hk).1, ?_, ?_, ?_, ?_⟩
  · rw [hfinal]; exact hconf.1
  · rw [hfinal]; exact hconf.2.1
  · rw [hfinal]; exact hconf.2.2.2.1
  · intro pre2 f2 hdec2
    have h1 : pre2 ++ [f2] = pre ++ [f] := by rw [← hdec2, ← hdec]
    obtain ⟨hp2, hf2⟩ := List.append_inj' h1 rfl
    have hf2 : f2 = f := by simpa using hf2
    subst hp2 hf2
    constructor
    · rw [hfinal]; exact hconf.2.2.1
    · rw [hfinal]
      refine ⟨_, ?_, hconf.2.2.2.2⟩
      simp

/-- Witness for C1 at the default configuration (`hits = 2`) with two
above-threshold frames. -/
theorem claim_C1_witness :
    (∀ k : Nat, k < ([(⟨1000000, mkRat 1 2, true, true⟩ : FrameIn),
          ⟨1020000, mkRat 1 2, true, true⟩]).length →
        (runSteps defaultGlobals defaultParams
          (([(⟨1000000, mkRat 1 2, true, true⟩ : FrameIn),
             ⟨1020000, mkRat 1 2, true, true⟩]).take k)
          initialState).1.voice_detected = false) ∧
    (runSteps defaultGlobals defaultParams
        [⟨1000000, mkRat 1 2, true, true⟩, ⟨1020000, mkRat 1 2, true, true⟩]
        initialState).1.voice_detected = true ∧
    (runSteps defaultGlobals defaultParams
        [⟨1000000, mkRat 1 2, true, true⟩, ⟨1020000, mkRat 1 2, true, true⟩]
        initialState).1.silence_frames = 0 ∧
    (runSteps defaultGlobals defaultParams
        [⟨1000000, mkRat 1 2, true, true⟩, ⟨1020000, mkRat 1 2, true, true⟩]
        initialState).1.current_word_length = 0 ∧
    (∀ pre f, ([(⟨1000000, mkRat 1 2, true, true⟩ : FrameIn),
          ⟨1020000, mkRat 1 2, true, true⟩]) = pre ++ [f] →
        (runSteps defaultGlobals defaultParams
          [⟨1000000, mkRat 1 2, true, true⟩, ⟨1020000, mkRat 1 2, true, true⟩]
          initialState).1.word_start_time = f.now ∧
        ∃ o, (runSteps defaultGlobals defaultParams
          [⟨1000000, mkRat 1 2, true, true⟩, ⟨1020000, mkRat 1 2, true, true⟩]
          initialState).2.getLast? = some o ∧ o.startDirective = true) :=
  claim_C1_voice_confirmation defaultGlobals defaultParams
    [⟨1000000, mkRat 1 2, true, true⟩, ⟨1020000, mkRat 1 2, true, true⟩]
    initialState rfl rfl (by decide) (by decide) (by decide)

/-! ## Claim C2 -/

/-- C2 counterexample: with the default parameters (`hits = 2`), feeding
`hits - 1 = 1` above-threshold frame and then one below-threshold frame
leaves `consecutive_hits = 1`; the C code does NOT reset it to 0, because
the below-threshold branch does nothing when `voice_detected` is false
(lines 483-517 have no else-arm for the idle case). -/
theorem claim_C2_counterexample :
    ¬ ((runSteps defaultGlobals defaultParams
        [⟨1000000, mkRat 1 2, true, true⟩, ⟨1020000, mkRat 0 1, true, true⟩]
        initialState).1.consecutive_hits = 0) := by decide

/-- C2 (amended): while `voice_detected = false`, a frame at or below the
threshold is a complete no-op apart from the total-frame counter: in
particular `consecutive_hits` is retained, NOT reset to 0.  Hence feeding
`hits - 1` above-threshold frames and then one below-threshold frame
leaves `voice_detected = false` with `consecutive_hits = hits - 1` (so a
single further above-threshold frame suffices to confirm voice; a fresh
run of `hits` frames is not required). -/
theorem claim_C2_hits_retained_on_idle_silence :
    (∀ (g : Globals) (p : RuntimeParams) (now : Int) (energy : Rat)
        (startOk stopOk : Bool) (s : SessionState),
        s.voice_detected = false → energy ≤ p.energy_threshold →
        voice_detector_callback g p now energy startOk stopOk s =
          ({ s with total_frames := s.total_frames + 1 }, ⟨[], false, false⟩)) ∧
    (∀ (g : Globals) (p : RuntimeParams) (fs : List FrameIn) (lf : FrameIn)
        (s : SessionState),
        s.voice_detected = false → s.consecutive_hits = 0 →
        (fs.length : Int) = p.hits - 1 →
        (∀ f ∈ fs, p.energy_threshold < f.energy) →
        lf.energy ≤ p.energy_threshold →
        (runSteps g p (fs ++ [lf]) s).1.voice_detected = false ∧
        (runSteps g p (fs ++ [lf]) s).1.consecutive_hits = p.hits - 1) := by
  constructor
  · intro g p now energy startOk stopOk s hvd he
    exact callback_below_idle g p now energy startOk stopOk s hvd he
  · intro g p fs lf s hvd hch hlen hall hlf
    have hrun := run_above_noconfirm g p fs s hvd hall (by omega)
    rw [runSteps_append]
    have hstep := callback_below_idle g p lf.now lf.energy lf.startOk lf.stopOk
      (runSteps g p fs s).1 hrun.1 hlf
    rw [runSteps_cons, hstep]
    simp only [runSteps_nil]
    refine ⟨hrun.1, ?_⟩
    rw [hrun.2, hch]
    omega

/-- Witness for the amended C2 at the default configuration. -/
theorem claim_C2_witness :
    (voice_detector_callback defaultGlobals defaultParams 1000000 (mkRat 0 1)
        true true initialState =
      ({ initialState with total_frames := initialState.total_frames + 1 },
       ⟨[], false, false⟩)) ∧
    ((runSteps defaultGlobals defaultParams
        ([⟨1000000, mkRat 1 2, true, true⟩] ++ [⟨1020000, mkRat 0 1, true, true⟩])
        initialState).1.voice_detected = false ∧
     (runSteps defaultGlobals defaultParams
        ([⟨1000000, mkRat 1 2, true, true⟩] ++ [⟨1020000, mkRat 0 1, true, true⟩])
        initialState).1.consecutive_hits = defaultParams.hits - 1) :=
  ⟨claim_C2_hits_retained_on_idle_silence.1 defaultGlobals defaultParams
      1000000 (mkRat 0 1) true true initialState rfl (by decide),
   claim_C2_hits_retained_on_idle_silence.2 defaultGlobals defaultParams
      [⟨1000000, mkRat 1 2, true, true⟩] ⟨1020000, mkRat 0 1, true, true⟩
      initialState rfl rfl (by decide) (by decide) (by decide)⟩

/-! ## Claim C5 -/

/-- The word-too-long abort branch (lines 476-481): on an above-threshold
frame while voicing whose accumulation pushes `current_word_length` past
`maximum_word_length`, voice detection is reset and recording stopped,
with no WordDetected or VoiceEnd dispatched. -/
theorem callback_word_too_long (g : Globals) (p : RuntimeParams) (now : Int)
    (energy : Rat) (startOk stopOk : Bool) (s : SessionState)
    (hvd : s.voice_detected = true) (he : p.energy_threshold < energy)
    (hlong : p.maximum_word_length < s.current_word_length + frameMs g) :
    (voice_detector_callback g p now energy startOk stopOk s).1.voice_detected = false ∧
    (voice_detector_callback g p now energy startOk stopOk s).1.consecutive_hits = 0 ∧
    (voice_detector_callback g p now energy startOk stopOk s).2.stopDirective = true ∧
    ∀ e ∈ (voice_detector_callback g p now energy startOk stopOk s).2.events,
      e.isWordDetected = false ∧ e.isVoiceEnd = false := by
  simp [voice_detector_callback, hvd, he, hlong]
  intro e hemem
  have h := stop_recording_events_sub now stopOk _ e hemem
  subst h
  exact ⟨rfl, rfl⟩

/-- C5 counterexample: the claim quantifies over any state in which
`current_word_length` already exceeds `maximum_word_length` while voicing
and asserts that the NEXT processed frame forces the abort; but if that
next frame is at or below the threshold the C code takes the silence
branch instead (line 484), leaving `voice_detected = true` and issuing no
stop-recording directive. -/
theorem claim_C5_counterexample :
    (defaultParams.maximum_word_length <
       ({ initialState with
           voice_detected := true, current_word_length := 3600 } : SessionState).current_word_length) ∧
    ({ initialState with
         voice_detected := true, current_word_length := 3600 } : SessionState).voice_detected = true ∧
    (voice_detector_callback defaultGlobals defaultParams 1000000 (mkRat 0 1)
        true true
        { initialState with
           voice_detected := true, current_word_length := 3600 }).1.voice_detected = true ∧
    (voice_detector_callback defaultGlobals defaultParams 1000000 (mkRat 0 1)
        true true
        { initialState with
           voice_detected := true, current_word_length := 3600 }).2.stopDirective = false := by
  decide

/-- C5 (amended): while `voice_detected = true`, an ABOVE-threshold frame
whose accumulation `current_word_length + frame-milliseconds` exceeds
`maximum_word_length` (in particular any above-threshold frame processed
while `current_word_length` already exceeds it, when the per-frame
milliseconds are nonnegative) forces `voice_detected = false`, resets
`consecutive_hits` to 0, issues a stop-recording directive, and emits no
WordDetected or VoiceEnd on that abort path; a below-threshold frame takes
the silence branch instead. -/
theorem claim_C5_word_too_long_abort (g : Globals) (p : RuntimeParams)
    (now : Int) (energy : Rat) (startOk stopOk : Bool) (s : SessionState)
    (hvd : s.voice_detected = true) (he : p.energy_threshold < energy)
    (hlong : p.maximum_word_length < s.current_word_length + frameMs g) :
    (voice_detector_callback g p now energy startOk stopOk s).1.voice_detected = false ∧
    (voice_detector_callback g p now energy startOk stopOk s).1.consecutive_hits = 0 ∧
    (voice_detector_callback g p now energy startOk stopOk s).2.stopDirective = true ∧
    ∀ e ∈ (voice_detector_callback g p now energy startOk stopOk s).2.events,
      e.isWordDetected = false ∧ e.isVoiceEnd = false :=
  callback_word_too_long g p now energy startOk stopOk s hvd he hlong

/-- Witness for the amended C5: a voicing state 5 ms short of the limit
aborts on the next above-threshold frame. -/
theorem claim_C5_witness :
    (voice_detector_callback defaultGlobals defaultParams 1000000 (mkRat 1 2)
        true true
        { initialState with
           voice_detected := true, current_word_length := 3495 }).1.voice_detected = false ∧
    (voice_detector_callback defaultGlobals defaultParams 1000000 (mkRat 1 2)
        true true
        { initialState with
           voice_detected := true, current_word_length := 3495 }).1.consecutive_hits = 0 ∧
    (voice_detector_callback defaultGlobals defaultParams 1000000 (mkRat 1 2)
        true true
        { initialState with
           voice_detected := true, current_word_length := 3495 }).2.stopDirective = true ∧
    ∀ e ∈ (voice_detector_callback defaultGlobals defaultParams 1000000
        (mkRat 1 2) true true
        { initialState with
           voice_detected := true, current_word_length := 3495 }).2.events,
      e.isWordDetected = false ∧ e.isVoiceEnd = false :=
  claim_C5_word_too_long_abort defaultGlobals defaultParams 1000000
    (mkRat 1 2) true true
    { initialState with
      voice_detected := true, current_word_length := 3495 }
    rfl (by decide) (by decide)

/-! ## Silence-branch lemmas -/

/-- Below-threshold frame while voicing, silence still within `max_silence`
and the word branch firing (lines 501-515): WordDetected is dispatched and
the word accumulators are reset. -/
theorem callback_silent_word (g : Globals) (p : RuntimeParams) (now : Int)
    (energy : Rat) (startOk stopOk : Bool) (s : SessionState)
    (hvd : s.voice_detected = true) (he : energy ≤ p.energy_threshold)
    (hnf : (s.silence_frames + 1) * frameMs g ≤ p.max_silence)
    (hbw : p.between_words_silence < (s.silence_frames + 1) * frameMs g)
    (hmin : p.min_word_length ≤ s.current_word_length) :
    voice_detector_callback g p now energy startOk stopOk s =
      ({ s with
          total_frames := s.total_frames + 1,
          silence_frames := s.silence_frames + 1,
          consecutive_hits := 0, word_end_time := now,
          word_start_time := now, current_word_length := 0 },
       ⟨[Event.wordDetected ((now - s.word_start_time).tdiv 1000000)],
        false, false⟩) := by
  have he2 : ¬ p.energy_threshold < energy := not_lt.mpr he
  have hnl : ¬ p.max_silence < (s.silence_frames + 1) * frameMs g := not_lt.mpr hnf
  simp [voice_detector_callback, hvd, he2, hnl, hbw, hmin]

/-- Below-threshold frame while voicing, silence still within `max_silence`
and the word branch not firing: only the silence counter advances and
nothing is dispatched. -/
theorem callback_silent_noword (g : Globals) (p : RuntimeParams) (now : Int)
    (energy : Rat) (startOk stopOk : Bool) (s : SessionState)
    (hvd : s.voice_detected = true) (he : energy ≤ p.energy_threshold)
    (hnf : (s.silence_frames + 1) * frameMs g ≤ p.max_silence)
    (hnw : ¬ (p.between_words_silence < (s.silence_frames + 1) * frameMs g) ∨
           ¬ (p.min_word_length ≤ s.current_word_length)) :
    voice_detector_callback g p now energy startOk stopOk s =
      ({ s with
          total_frames := s.total_frames + 1,
          silence_frames := s.silence_frames + 1,
          consecutive_hits := 0 },
       ⟨[], false, false⟩) := by
  have he2 : ¬ p.energy_threshold < energy := not_lt.mpr he
  have hnl : ¬ p.max_silence < (s.silence_frames + 1) * frameMs g := not_lt.mpr hnf
  rcases hnw with h | h
  · simp [voice_detector_callback, hvd, he2, hnl, h]
  · by_cases hbw : p.between_words_silence < (s.silence_frames + 1) * frameMs g <;>
      simp [voice_detector_callback, hvd, he2, hnl, hbw, h]

/-- Below-threshold frame while voicing whose accumulated silence strictly
exceeds `max_silence` (lines 491-500): voice detection ends, recording is
stopped, and VoiceEnd is dispatched subject to the debounce window. -/
theorem callback_silent_fire (g : Globals) (p : RuntimeParams) (now : Int)
    (energy : Rat) (startOk stopOk : Bool) (s : SessionState)
    (hvd : s.voice_detected = true) (he : energy ≤ p.energy_threshold)
    (hf : p.max_silence < (s.silence_frames + 1) * frameMs g) :
    voice_detector_callback g p now energy startOk stopOk s =
      (let s2 := { s with
          total_frames := s.total_frames + 1,
          silence_frames := s.silence_frames + 1,
          consecutive_hits := 0, voice_detected := false }
       let r := voice_detector_stop_recording now stopOk s2
       if g.debounce_ms * 1000 < now - s.last_api_call_time then
         ({ r.1 with last_api_call_time := now },
          ⟨r.2 ++ [Event.voiceEnd (payload energy)], false, true⟩)
       else (r.1, ⟨r.2, false, true⟩)) := by
  have he2 : ¬ p.energy_threshold < energy := not_lt.mpr he
  by_cases hdeb : g.debounce_ms * 1000 < now - s.last_api_call_time <;>
    simp [voice_detector_callback, hvd, he2, hf, hdeb]

/-- A run of below-threshold frames while voicing whose accumulated silence
never exceeds `max_silence`: voicing persists, the silence counter advances
by the run length, the debounce clock is untouched, and no VoiceEnd or
stop-recording directive occurs. -/
theorem run_silent_nofire (g : Globals) (p : RuntimeParams) (fs : List FrameIn) :
    ∀ s : SessionState, s.voice_detected = true →
    0 ≤ frameMs g →
    (∀ x ∈ fs, x.energy ≤ p.energy_threshold) →
    (s.silence_frames + (fs.length : Int)) * frameMs g ≤ p.max_silence →
    (runSteps g p fs s).1.voice_detected = true ∧
    (runSteps g p fs s).1.silence_frames = s.silence_frames + (fs.length : Int) ∧
    (runSteps g p fs s).1.last_api_call_time = s.last_api_call_time ∧
    ∀ o ∈ (runSteps g p fs s).2,
      (∀ e ∈ o.events, e.isVoiceEnd = false) ∧ o.stopDirective = false := by
  induction fs with
  | nil => intro s hvd _ _ _; simp [hvd]
  | cons f fs ih =>
      intro s hvd hd hall hbound
      have hb1 : (s.silence_frames + 1) * frameMs g ≤ p.max_silence := by
        refine le_trans (mul_le_mul_of_nonneg_right ?_ hd) hbound
        simp only [List.length_cons]
        push_cast
        have : (0:Int) ≤ (fs.length : Int) := Int.natCast_nonneg _
        omega
      have hb2 : (s.silence_frames + 1 + (fs.length : Int)) * frameMs g ≤
          p.max_silence := by
        have h := hbound
        simp only [List.length_cons] at h
        push_cast at h
        calc (s.silence_frames + 1 + (fs.length : Int)) * frameMs g
            = (s.silence_frames + ((fs.length : Int) + 1)) * frameMs g := by ring
          _ ≤ p.max_silence := h
      have hfe : f.energy ≤ p.energy_threshold := hall f (List.mem_cons_self f fs)
      have halltl : ∀ x ∈ fs, x.energy ≤ p.energy_threshold :=
        fun x hx => hall x (List.mem_cons_of_mem f hx)
      by_cases hw : p.between_words_silence < (s.silence_frames + 1) * frameMs g ∧
          p.min_word_length ≤ s.current_word_length
      · have hstep := callback_silent_word g p f.now f.energy f.startOk f.stopOk s
          hvd hfe hb1 hw.1 hw.2
        rw [runSteps_cons, hstep]
        have hrec := ih { s with
            total_frames := s.total_frames + 1,
            silence_frames := s.silence_frames + 1,
            consecutive_hits := 0, word_end_time := f.now,
            word_start_time := f.now, current_word_length := 0 }
          hvd hd halltl hb2
        dsimp only at hrec ⊢
        refine ⟨hrec.1, ?_, hrec.2.2.1, ?_⟩
        · rw [hrec.2.1]
          simp only [List.length_cons]
          push_cast
          omega
        · intro o ho
          rcases List.mem_cons.mp ho with rfl | h
          · exact ⟨by intro e hemem; simp at hemem; subst hemem; rfl, rfl⟩
          · exact hrec.2.2.2 o h
      · have hstep := callback_silent_noword g p f.now f.energy f.startOk f.stopOk s
          hvd hfe hb1 (by tauto)
        rw [runSteps_cons, hstep]
        have hrec := ih { s with
            total_frames := s.total_frames + 1,
            silence_frames := s.silence_frames + 1,
            consecutive_hits := 0 }
          hvd hd halltl hb2
        dsimp only at hrec ⊢
        refine ⟨hrec.1, ?_, hrec.2.2.1, ?_⟩
        · rw [hrec.2.1]
          simp only [List.length_cons]
          push_cast
          omega
        · intro o ho
          rcases List.mem_cons.mp ho with rfl | h
          · exact ⟨by intro e hemem; simp at hemem, rfl⟩
          · exact hrec.2.2.2 o h

/-! ## Claim C3 -/

/-- C3: given `voice_detected = true` followed by an uninterrupted run of
frames at or below `energy_threshold`, the VoiceEnd event fires exactly
once, on the first frame of the run where the accumulated silence duration
(`silence_frames` times the per-frame milliseconds) strictly exceeds
`max_silence` and not on any earlier frame; on that frame `voice_detected`
is set to false and a stop-recording directive is issued.  (Dispatch of the
VoiceEnd notification itself is subject to the debounce window, per the
spec debounce rule; the hypothesis `hdeb` states that the window has
elapsed at the firing frame.  No other frame of the run dispatches a
VoiceEnd under any circumstances.) -/
theorem claim_C3_voice_end_once (g : Globals) (p : RuntimeParams)
    (pre post : List FrameIn) (f : FrameIn) (s : SessionState)
    (hvd : s.voice_detected = true) (hd : 0 ≤ frameMs g)
    (hallpre : ∀ x ∈ pre, x.energy ≤ p.energy_threshold)
    (hfe : f.energy ≤ p.energy_threshold)
    (hallpost : ∀ x ∈ post, x.energy ≤ p.energy_threshold)
    (hpre : (s.silence_frames + (pre.length : Int)) * frameMs g ≤ p.max_silence)
    (hfire : p.max_silence <
      (s.silence_frames + (pre.length : Int) + 1) * frameMs g)
    (hdeb : g.debounce_ms * 1000 < f.now - s.last_api_call_time) :
    (∀ o ∈ (runSteps g p pre s).2,
       (∀ e ∈ o.events, e.isVoiceEnd = false) ∧ o.stopDirective = false) ∧
    Event.voiceEnd (payload f.energy) ∈
      (voice_detector_callback g p f.now f.energy f.startOk f.stopOk
        (runSteps g p pre s).1).2.events ∧
    (voice_detector_callback g p f.now f.energy f.startOk f.stopOk
        (runSteps g p pre s).1).1.voice_detected = false ∧
    (voice_detector_callback g p f.now f.energy f.startOk f.stopOk
        (runSteps g p pre s).1).2.stopDirective = true ∧
    (∀ o ∈ (runSteps g p post
        (voice_detector_callback g p f.now f.energy f.startOk f.stopOk
          (runSteps g p pre s).1).1).2,
       ∀ e ∈ o.events, e.isVoiceEnd = false) ∧
    ((runSteps g p (pre ++ f :: post) s).2.map
        (fun o => o.events.countP Event.isVoiceEnd)).sum = 1 := by
  obtain ⟨hpvd, hpsf, hpla, hpouts⟩ := run_silent_nofire g p pre s hvd hd hallpre hpre
  have hb : p.max_silence <
      ((runSteps g p pre s).1.silence_frames + 1) * frameMs g := by
    rw [hpsf]; exact hfire
  have hfeq := callback_silent_fire g p f.now f.energy f.startOk f.stopOk
    (runSteps g p pre s).1 hpvd hfe hb
  simp only [hpla] at hfeq
  rw [if_pos hdeb] at hfeq
  have hvd2 : (voice_detector_callback g p f.now f.energy f.startOk f.stopOk
      (runSteps g p pre s).1).1.voice_detected = false := by
    rw [hfeq]; simp
  have hpost := run_below_idle g p post
    (voice_detector_callback g p f.now f.energy f.startOk f.stopOk
      (runSteps g p pre s).1).1 hvd2 hallpost
  have hfire1 : (voice_detector_callback g p f.now f.energy f.startOk f.stopOk
      (runSteps g p pre s).1).2.events.countP Event.isVoiceEnd = 1 := by
    rw [hfeq]
    dsimp only
    rw [List.countP_append]
    have h0 : ∀ (st : SessionState),
        (voice_detector_stop_recording f.now f.stopOk st).2.countP
          Event.isVoiceEnd = 0 := by
      intro st
      apply List.countP_eq_zero.mpr
      intro e hemem
      have h := stop_recording_events_sub f.now f.stopOk st e hemem
      subst h
      simp [Event.isVoiceEnd]
    rw [h0]
    simp [Event.isVoiceEnd, List.countP_cons]
  refine ⟨hpouts, ?_, hvd2, ?_, ?_, ?_⟩
  · rw [hfeq]
    simp
  · rw [hfeq]
  · intro o ho e hemem
    have h := hpost.2 o ho
    subst h
    exact absurd hemem (List.not_mem_nil e)
  · rw [runSteps_append, runSteps_cons]
    dsimp only
    rw [List.map_append, List.sum_append, List.map_cons, List.sum_cons]
    have hpre0 : ((runSteps g p pre s).2.map
        (fun o => o.events.countP Event.isVoiceEnd)).sum = 0 := by
      apply List.sum_eq_zero
      intro x hx
      simp only [List.mem_map] at hx
      obtain ⟨o, ho, rfl⟩ := hx
      apply List.countP_eq_zero.mpr
      intro e hemem
      simp [(hpouts o ho).1 e hemem]
    have hpost0 : ((runSteps g p post
        (voice_detector_callback g p f.now f.energy f.startOk f.stopOk
          (runSteps g p pre s).1).1).2.map
        (fun o => o.events.countP Event.isVoiceEnd)).sum = 0 := by
      apply List.sum_eq_zero
      intro x hx
      simp only [List.mem_map] at hx
      obtain ⟨o, ho, rfl⟩ := hx
      have h := hpost.2 o ho
      subst h
      simp
    rw [hpre0, hfire1, hpost0]
    omega

/-- Witness for C3: with frame geometry of 20 ms and `max_silence = 30`,
the second silent frame is the first whose accumulated silence exceeds the
limit; it dispatches the only VoiceEnd of the run. -/
theorem claim_C3_witness :
    (∀ o ∈ (runSteps defaultGlobals { defaultParams with max_silence := 30 }
        [⟨1000000, mkRat 0 1, true, true⟩]
        { initialState with voice_detected := true }).2,
       (∀ e ∈ o.events, e.isVoiceEnd = false) ∧ o.stopDirective = false) ∧
    Event.voiceEnd (payload (mkRat 0 1)) ∈
      (voice_detector_callback defaultGlobals
        { defaultParams with max_silence := 30 } 1020000 (mkRat 0 1) true true
        (runSteps defaultGlobals { defaultParams with max_silence := 30 }
          [⟨1000000, mkRat 0 1, true, true⟩]
          { initialState with voice_detected := true }).1).2.events ∧
    (voice_detector_callback defaultGlobals
        { defaultParams with max_silence := 30 } 1020000 (mkRat 0 1) true true
        (runSteps defaultGlobals { defaultParams with max_silence := 30 }
          [⟨1000000, mkRat 0 1, true, true⟩]
          { initialState with voice_detected := true }).1).1.voice_detected = false ∧
    (voice_detector_callback defaultGlobals
        { defaultParams with max_silence := 30 } 1020000 (mkRat 0 1) true true
        (runSteps defaultGlobals { defaultParams with max_silence := 30 }
          [⟨1000000, mkRat 0 1, true, true⟩]
          { initialState with voice_detected := true }).1).2.stopDirective = true ∧
    (∀ o ∈ (runSteps defaultGlobals { defaultParams with max_silence := 30 }
        [⟨1040000, mkRat 0 1, true, true⟩]
        (voice_detector_callback defaultGlobals
          { defaultParams with max_silence := 30 } 1020000 (mkRat 0 1) true true
          (runSteps defaultGlobals { defaultParams with max_silence := 30 }
            [⟨1000000, mkRat 0 1, true, true⟩]
            { initialState with voice_detected := true }).1).1).2,
       ∀ e ∈ o.events, e.isVoiceEnd = false) ∧
    ((runSteps defaultGlobals { defaultParams with max_silence := 30 }
        ([⟨1000000, mkRat 0 1, true, true⟩] ++
          ⟨1020000, mkRat 0 1, true, true⟩ :: [⟨1040000, mkRat 0 1, true, true⟩])
        { initialState with voice_detected := true }).2.map
        (fun o => o.events.countP Event.isVoiceEnd)).sum = 1 :=
  claim_C3_voice_end_once defaultGlobals
    { defaultParams with max_silence := 30 }
    [⟨1000000, mkRat 0 1, true, true⟩] [⟨1040000, mkRat 0 1, true, true⟩]
    ⟨1020000, mkRat 0 1, true, true⟩
    { initialState with voice_detected := true }
    rfl (by decide) (by decide) (by decide) (by decide) (by decide) (by decide)
    (by decide)

/-- A silence gap that never exceeds `between_words_silence` (itself within
`max_silence`) dispatches nothing at all. -/
theorem run_silent_shortgap (g : Globals) (p : RuntimeParams) (fs : List FrameIn) :
    ∀ s : SessionState, s.voice_detected = true →
    0 ≤ frameMs g →
    (∀ x ∈ fs, x.energy ≤ p.energy_threshold) →
    p.between_words_silence ≤ p.max_silence →
    (s.silence_frames + (fs.length : Int)) * frameMs g ≤ p.between_words_silence →
    ∀ o ∈ (runSteps g p fs s).2, o.events = [] := by
  induction fs with
  | nil => intro s _ _ _ _ _ o ho; simp at ho
  | cons f fs ih =>
      intro s hvd hd hall hbm hbound
      have hb1 : (s.silence_frames + 1) * frameMs g ≤ p.between_words_silence := by
        refine le_trans (mul_le_mul_of_nonneg_right ?_ hd) hbound
        simp only [List.length_cons]
        push_cast
        have : (0:Int) ≤ (fs.length : Int) := Int.natCast_nonneg _
        omega
      have hb2 : (s.silence_frames + 1 + (fs.length : Int)) * frameMs g ≤
          p.between_words_silence := by
        have h := hbound
        simp only [List.length_cons] at h
        push_cast at h
        calc (s.silence_frames + 1 + (fs.length : Int)) * frameMs g
            = (s.silence_frames + ((fs.length : Int) + 1)) * frameMs g := by ring
          _ ≤ p.between_words_silence := h
      have hstep := callback_silent_noword g p f.now f.energy f.startOk f.stopOk s
        hvd (hall f (List.mem_cons_self f fs)) (le_trans hb1 hbm)
        (Or.inl (not_lt.mpr hb1))
      rw [runSteps_cons, hstep]
      intro o ho
      rcases List.mem_cons.mp ho with rfl | h
      · rfl
      · exact ih { s with
            total_frames := s.total_frames + 1,
            silence_frames := s.silence_frames + 1,
            consecutive_hits := 0 }
          hvd hd (fun x hx => hall x (List.mem_cons_of_mem f hx)) hbm hb2 o h

/-- While the accumulated word is shorter than `min_word_length`, a silence
run within `max_silence` dispatches nothing (the word branch cannot fire
and the word accumulator stays put). -/
theorem run_silent_smallword (g : Globals) (p : RuntimeParams) (fs : List FrameIn) :
    ∀ s : SessionState, s.voice_detected = true →
    0 ≤ frameMs g →
    (∀ x ∈ fs, x.energy ≤ p.energy_threshold) →
    (s.silence_frames + (fs.length : Int)) * frameMs g ≤ p.max_silence →
    s.current_word_length < p.min_word_length →
    ∀ o ∈ (runSteps g p fs s).2, o.events = [] := by
  induction fs with
  | nil => intro s _ _ _ _ _ o ho; simp at ho
  | cons f fs ih =>
      intro s hvd hd hall hbound hsmall
      have hb1 : (s.silence_frames + 1) * frameMs g ≤ p.max_silence := by
        refine le_trans (mul_le_mul_of_nonneg_right ?_ hd) hbound
        simp only [List.length_cons]
        push_cast
        have : (0:Int) ≤ (fs.length : Int) := Int.natCast_nonneg _
        omega
      have hb2 : (s.silence_frames + 1 + (fs.length : Int)) * frameMs g ≤
          p.max_silence := by
        have h := hbound
        simp only [List.length_cons] at h
        push_cast at h
        calc (s.silence_frames + 1 + (fs.length : Int)) * frameMs g
            = (s.silence_frames + ((fs.length : Int) + 1)) * frameMs g := by ring
          _ ≤ p.max_silence := h
      have hstep := callback_silent_noword g p f.now f.energy f.startOk f.stopOk s
        hvd (hall f (List.mem_cons_self f fs)) hb1 (Or.inr (not_le.mpr hsmall))
      rw [runSteps_cons, hstep]
      intro o ho
      rcases List.mem_cons.mp ho with rfl | h
      · rfl
      · exact ih { s with
            total_frames := s.total_frames + 1,
            silence_frames := s.silence_frames + 1,
            consecutive_hits := 0 }
          hvd hd (fun x hx => hall x (List.mem_cons_of_mem f hx)) hb2 hsmall o h

/-- Over a silence run within `max_silence`, at most one WordDetected is
dispatched in total, provided `min_word_length` is at least 1. -/
theorem run_silent_word_once (g : Globals) (p : RuntimeParams) (fs : List FrameIn) :
    ∀ s : SessionState, s.voice_detected = true →
    0 ≤ frameMs g →
    (∀ x ∈ fs, x.energy ≤ p.energy_threshold) →
    (s.silence_frames + (fs.length : Int)) * frameMs g ≤ p.max_silence →
    1 ≤ p.min_word_length →
    ((runSteps g p fs s).2.map
        (fun o => o.events.countP Event.isWordDetected)).sum ≤ 1 := by
  induction fs with
  | nil => intro s _ _ _ _ _; simp
  | cons f fs ih =>
      intro s hvd hd hall hbound hmin1
      have hb1 : (s.silence_frames + 1) * frameMs g ≤ p.max_silence := by
        refine le_trans (mul_le_mul_of_nonneg_right ?_ hd) hbound
        simp only [List.length_cons]
        push_cast
        have : (0:Int) ≤ (fs.length : Int) := Int.natCast_nonneg _
        omega
      have hb2 : (s.silence_frames + 1 + (fs.length : Int)) * frameMs g ≤
          p.max_silence := by
        have h := hbound
        simp only [List.length_cons] at h
        push_cast at h
        calc (s.silence_frames + 1 + (fs.length : Int)) * frameMs g
            = (s.silence_frames + ((fs.length : Int) + 1)) * frameMs g := by ring
          _ ≤ p.max_silence := h
      have hfe : f.energy ≤ p.energy_threshold := hall f (List.mem_cons_self f fs)
      have halltl : ∀ x ∈ fs, x.energy ≤ p.energy_threshold :=
        fun x hx => hall x (List.mem_cons_of_mem f hx)
      by_cases hw : p.between_words_silence < (s.silence_frames + 1) * frameMs g ∧
          p.min_word_length ≤ s.current_word_length
      · have hstep := callback_silent_word g p f.now f.energy f.startOk f.stopOk s
          hvd hfe hb1 hw.1 hw.2
        rw [runSteps_cons, hstep]
        have htail := run_silent_smallword g p fs { s with
            total_frames := s.total_frames + 1,
            silence_frames := s.silence_frames + 1,
            consecutive_hits := 0, word_end_time := f.now,
            word_start_time := f.now, current_word_length := 0 }
          hvd hd halltl hb2 (by dsimp only; omega)
        have htail0 : ((runSteps g p fs { s with
            total_frames := s.total_frames + 1,
            silence_frames := s.silence_frames + 1,
            consecutive_hits := 0, word_end_time := f.now,
            word_start_time := f.now, current_word_length := 0 }).2.map
            (fun o => o.events.countP Event.isWordDetected)).sum = 0 := by
          apply List.sum_eq_zero
          intro x hx
          simp only [List.mem_map] at hx
          obtain ⟨o, ho, rfl⟩ := hx
          rw [htail o ho]
          rfl
        dsimp only [List.map_cons, List.sum_cons]
        rw [htail0]
        simp [Event.isWordDetected, List.countP_cons]
      · have hstep := callback_silent_noword g p f.now f.energy f.startOk f.stopOk s
          hvd hfe hb1 (by tauto)
        rw [runSteps_cons, hstep]
        have htail := ih { s with
            total_frames := s.total_frames + 1,
            silence_frames := s.silence_frames + 1,
            consecutive_hits := 0 }
          hvd hd halltl hb2 hmin1
        dsimp only [List.map_cons, List.sum_cons]
        simpa using htail

/-! ## Claim C4 -/

/-- C4: while `voice_detected = true`, a below-threshold frame whose
accumulated silence duration strictly exceeds `between_words_silence` but
does not exceed `max_silence` emits a WordDetected event if and only if
`current_word_length >= min_word_length`, after which `word_start_time`
is reset to now and `current_word_length` to 0, so that (for
`min_word_length >= 1`) at most one WordDetected fires per silence gap;
a gap that never exceeds `between_words_silence` never fires
WordDetected, and this branch never changes `voice_detected`. -/
theorem claim_C4_word_boundary :
    (∀ (g : Globals) (p : RuntimeParams) (now : Int) (energy : Rat)
        (startOk stopOk : Bool) (s : SessionState),
        s.voice_detected = true → energy ≤ p.energy_threshold →
        p.between_words_silence < (s.silence_frames + 1) * frameMs g →
        (s.silence_frames + 1) * frameMs g ≤ p.max_silence →
        ((∃ d, Event.wordDetected d ∈
            (voice_detector_callback g p now energy startOk stopOk s).2.events) ↔
          p.min_word_length ≤ s.current_word_length) ∧
        (p.min_word_length ≤ s.current_word_length →
          (voice_detector_callback g p now energy startOk stopOk s).2.events =
            [Event.wordDetected ((now - s.word_start_time).tdiv 1000000)] ∧
          (voice_detector_callback g p now energy startOk stopOk s).1.word_start_time
            = now ∧
          (voice_detector_callback g p now energy startOk stopOk s).1.current_word_length
            = 0) ∧
        (voice_detector_callback g p now energy startOk stopOk s).1.voice_detected
          = true) ∧
    (∀ (g : Globals) (p : RuntimeParams) (fs : List FrameIn) (s : SessionState),
        s.voice_detected = true → 0 ≤ frameMs g →
        (∀ x ∈ fs, x.energy ≤ p.energy_threshold) →
        (s.silence_frames + (fs.length : Int)) * frameMs g ≤ p.max_silence →
        1 ≤ p.min_word_length →
        ((runSteps g p fs s).2.map
            (fun o => o.events.countP Event.isWordDetected)).sum ≤ 1) ∧
    (∀ (g : Globals) (p : RuntimeParams) (fs : List FrameIn) (s : SessionState),
        s.voice_detected = true → 0 ≤ frameMs g →
        (∀ x ∈ fs, x.energy ≤ p.energy_threshold) →
        p.between_words_silence ≤ p.max_silence →
        (s.silence_frames + (fs.length : Int)) * frameMs g ≤
          p.between_words_silence →
        ∀ o ∈ (runSteps g p fs s).2, ∀ e ∈ o.events, e.isWordDetected = false) := by
  refine ⟨?_, ?_, ?_⟩
  · intro g p now energy startOk stopOk s hvd he hbw hns
    by_cases hmin : p.min_word_length ≤ s.current_word_length
    · have hstep := callback_silent_word g p now energy startOk stopOk s
        hvd he hns hbw hmin
      rw [hstep]
      refine ⟨?_, fun _ => ⟨rfl, rfl, rfl⟩, hvd⟩
      simp [hmin]
    · have hstep := callback_silent_noword g p now energy startOk stopOk s
        hvd he hns (Or.inr hmin)
      rw [hstep]
      refine ⟨?_, fun h => absurd h hmin, hvd⟩
      simp [hmin]
  · intro g p fs s hvd hd hall hbound hmin1
    exact run_silent_word_once g p fs s hvd hd hall hbound hmin1
  · intro g p fs s hvd hd hall hbm hbound o ho e hemem
    rw [run_silent_shortgap g p fs s hvd hd hall hbm hbound o ho] at hemem
    exact absurd hemem (List.not_mem_nil e)

/-- Witness for C4 at the default configuration: a 20 ms frame geometry,
a gap already 3 frames long (80 ms of silence on the next frame, above the
50 ms word boundary and below `max_silence`), and a 150 ms word fires
exactly one WordDetected; a 1-frame 20 ms gap fires none. -/
theorem claim_C4_witness :
    (((∃ d, Event.wordDetected d ∈
        (voice_detector_callback defaultGlobals defaultParams 3000000
          (mkRat 0 1) true true
          { initialState with
              voice_detected := true, silence_frames := 3,
              current_word_length := 150 }).2.events) ↔
      defaultParams.min_word_length ≤
        ({ initialState with
            voice_detected := true, silence_frames := 3,
            current_word_length := 150 } : SessionState).current_word_length) ∧
     (defaultParams.min_word_length ≤
        ({ initialState with
            voice_detected := true, silence_frames := 3,
            current_word_length := 150 } : SessionState).current_word_length →
       (voice_detector_callback defaultGlobals defaultParams 3000000
          (mkRat 0 1) true true
          { initialState with
              voice_detected := true, silence_frames := 3,
              current_word_length := 150 }).2.events =
         [Event.wordDetected ((3000000 -
            ({ initialState with
                voice_detected := true, silence_frames := 3,
                current_word_length := 150 } : SessionState).word_start_time).tdiv
            1000000)] ∧
       (voice_detector_callback defaultGlobals defaultParams 3000000
          (mkRat 0 1) true true
          { initialState with
              voice_detected := true, silence_frames := 3,
              current_word_length := 150 }).1.word_start_time = 3000000 ∧
       (voice_detector_callback defaultGlobals defaultParams 3000000
          (mkRat 0 1) true true
          { initialState with
              voice_detected := true, silence_frames := 3,
              current_word_length := 150 }).1.current_word_length = 0) ∧
     (voice_detector_callback defaultGlobals defaultParams 3000000
        (mkRat 0 1) true true
        { initialState with
            voice_detected := true, silence_frames := 3,
            current_word_length := 150 }).1.voice_detected = true) ∧
    (((runSteps defaultGlobals defaultParams
        [⟨3000000, mkRat 0 1, true, true⟩]
        { initialState with
            voice_detected := true, silence_frames := 3,
            current_word_length := 150 }).2.map
        (fun o => o.events.countP Event.isWordDetected)).sum ≤ 1) ∧
    (∀ o ∈ (runSteps defaultGlobals defaultParams
        [⟨3000000, mkRat 0 1, true, true⟩]
        { initialState with voice_detected := true }).2,
       ∀ e ∈ o.events, e.isWordDetected = false) :=
  ⟨claim_C4_word_boundary.1 defaultGlobals defaultParams 3000000 (mkRat 0 1)
      true true
      { initialState with
          voice_detected := true, silence_frames := 3,
          current_word_length := 150 }
      rfl (by decide) (by decide) (by decide),
   claim_C4_word_boundary.2.1 defaultGlobals defaultParams
      [⟨3000000, mkRat 0 1, true, true⟩]
      { initialState with
          voice_detected := true, silence_frames := 3,
          current_word_length := 150 }
      rfl (by decide) (by decide) (by decide) (by decide),
   claim_C4_word_boundary.2.2 defaultGlobals defaultParams
      [⟨3000000, mkRat 0 1, true, true⟩]
      { initialState with voice_detected := true }
      rfl (by decide) (by decide) (by decide) (by decide)⟩

/-! ## Event bookkeeping helpers -/

@[simp] theorem voiceStart_not_mem_start_recording (p : RuntimeParams) (now : Int)
    (ok : Bool) (s : SessionState) (x : Int) :
    Event.voiceStart x ∉ (voice_detector_start_recording p now ok s).2 := by
  unfold voice_detector_start_recording; split_ifs <;> simp

@[simp] theorem voiceEnd_not_mem_start_recording (p : RuntimeParams) (now : Int)
    (ok : Bool) (s : SessionState) (x : Int) :
    Event.voiceEnd x ∉ (voice_detector_start_recording p now ok s).2 := by
  unfold voice_detector_start_recording; split_ifs <;> simp

@[simp] theorem voiceStart_not_mem_stop_recording (now : Int) (ok : Bool)
    (s : SessionState) (x : Int) :
    Event.voiceStart x ∉ (voice_detector_stop_recording now ok s).2 := by
  unfold voice_detector_stop_recording; split_ifs <;> simp

@[simp] theorem voiceEnd_not_mem_stop_recording (now : Int) (ok : Bool)
    (s : SessionState) (x : Int) :
    Event.voiceEnd x ∉ (voice_detector_stop_recording now ok s).2 := by
  unfold voice_detector_stop_recording; split_ifs <;> simp

@[simp] theorem countP_isVoiceStart_start_recording (p : RuntimeParams) (now : Int)
    (ok : Bool) (s : SessionState) :
    (voice_detector_start_recording p now ok s).2.countP Event.isVoiceStart = 0 := by
  unfold voice_detector_start_recording; split_ifs <;> simp [Event.isVoiceStart]

@[simp] theorem countP_isVoiceStart_stop_recording (now : Int) (ok : Bool)
    (s : SessionState) :
    (voice_detector_stop_recording now ok s).2.countP Event.isVoiceStart = 0 := by
  unfold voice_detector_stop_recording; split_ifs <;> simp [Event.isVoiceStart]

@[simp] theorem filter_nonvoice_start_recording (p : RuntimeParams) (now : Int)
    (ok : Bool) (s : SessionState) :
    ((voice_detector_start_recording p now ok s).2.filter
       (fun e => !e.isVoice)) = (voice_detector_start_recording p now ok s).2 := by
  unfold voice_detector_start_recording; split_ifs <;> simp [Event.isVoice]

@[simp] theorem filter_nonvoice_stop_recording (now : Int) (ok : Bool)
    (s : SessionState) :
    ((voice_detector_stop_recording now ok s).2.filter
       (fun e => !e.isVoice)) = (voice_detector_stop_recording now ok s).2 := by
  unfold voice_detector_stop_recording; split_ifs <;> simp [Event.isVoice]

/-! ## Full-equality forms of the idle-above and voicing-above branches -/

/-- Idle above-threshold frame, hit count reached, debounce window elapsed:
VoiceStart is dispatched, the debounce clock updated, voice confirmed and
recording started. -/
theorem callback_above_confirm_deb (g : Globals) (p : RuntimeParams) (now : Int)
    (energy : Rat) (startOk stopOk : Bool) (s : SessionState)
    (hvd : s.voice_detected = false) (he : p.energy_threshold < energy)
    (hge : p.hits ≤ s.consecutive_hits + 1)
    (hdeb : g.debounce_ms * 1000 < now - s.last_api_call_time) :
    voice_detector_callback g p now energy startOk stopOk s =
      (let r := voice_detector_start_recording p now startOk
          { s with total_frames := s.total_frames + 1,
                   consecutive_hits := s.consecutive_hits + 1,
                   last_api_call_time := now, voice_detected := true,
                   last_voice_time := now, silence_frames := 0,
                   word_start_time := now, current_word_length := 0 }
       (r.1, ⟨Event.voiceStart (payload energy) :: r.2, true, false⟩)) := by
  simp [voice_detector_callback, hvd, he, hge, hdeb]

/-- Idle above-threshold frame, hit count reached, debounce window NOT
elapsed: no VoiceStart, clock untouched, but voice is still confirmed and
recording still started. -/
theorem callback_above_confirm_nodeb (g : Globals) (p : RuntimeParams) (now : Int)
    (energy : Rat) (startOk stopOk : Bool) (s : SessionState)
    (hvd : s.voice_detected = false) (he : p.energy_threshold < energy)
    (hge : p.hits ≤ s.consecutive_hits + 1)
    (hdeb : ¬ (g.debounce_ms * 1000 < now - s.last_api_call_time)) :
    voice_detector_callback g p now energy startOk stopOk s =
      (let r := voice_detector_start_recording p now startOk
          { s with total_frames := s.total_frames + 1,
                   consecutive_hits := s.consecutive_hits + 1,
                   voice_detected := true,
                   last_voice_time := now, silence_frames := 0,
                   word_start_time := now, current_word_length := 0 }
       (r.1, ⟨r.2, true, false⟩)) := by
  simp [voice_detector_callback, hvd, he, hge, hdeb]

/-- Idle above-threshold frame, hit count not reached, debounce window
elapsed: VoiceStart dispatched and the clock updated. -/
theorem callback_above_noconfirm_deb (g : Globals) (p : RuntimeParams) (now : Int)
    (energy : Rat) (startOk stopOk : Bool) (s : SessionState)
    (hvd : s.voice_detected = false) (he : p.energy_threshold < energy)
    (hge : ¬ (p.hits ≤ s.consecutive_hits + 1))
    (hdeb : g.debounce_ms * 1000 < now - s.last_api_call_time) :
    voice_detector_callback g p now energy startOk stopOk s =
      ({ s with total_frames := s.total_frames + 1,
                consecutive_hits := s.consecutive_hits + 1,
                last_api_call_time := now },
       ⟨[Event.voiceStart (payload energy)], false, false⟩) := by
  simp [voice_detector_callback, hvd, he, hge, hdeb]

/-- Idle above-threshold frame, hit count not reached, debounce window NOT
elapsed: nothing dispatched, only the hit counter advances. -/
theorem callback_above_noconfirm_nodeb (g : Globals) (p : RuntimeParams) (now : Int)
    (energy : Rat) (startOk stopOk : Bool) (s : SessionState)
    (hvd : s.voice_detected = false) (he : p.energy_threshold < energy)
    (hge : ¬ (p.hits ≤ s.consecutive_hits + 1))
    (hdeb : ¬ (g.debounce_ms * 1000 < now - s.last_api_call_time)) :
    voice_detector_callback g p now energy startOk stopOk s =
      ({ s with total_frames := s.total_frames + 1,
                consecutive_hits := s.consecutive_hits + 1 },
       ⟨[], false, false⟩) := by
  simp [voice_detector_callback, hvd, he, hge, hdeb]

/-- Voicing above-threshold frame within the word-length limit: the word
accumulates and nothing is dispatched. -/
theorem callback_voicing_cont (g : Globals) (p : RuntimeParams) (now : Int)
    (energy : Rat) (startOk stopOk : Bool) (s : SessionState)
    (hvd : s.voice_detected = true) (he : p.energy_threshold < energy)
    (hnl : ¬ (p.maximum_word_length < s.current_word_length + frameMs g)) :
    voice_detector_callback g p now energy startOk stopOk s =
      ({ s with total_frames := s.total_frames + 1,
                consecutive_hits := 0,
                current_word_length := s.current_word_length + frameMs g },
       ⟨[], false, false⟩) := by
  simp [voice_detector_callback, hvd, he, hnl]

/-- Voicing above-threshold frame past the word-length limit: the abort
path of `callback_word_too_long`, as a full equality. -/
theorem callback_voicing_abort (g : Globals) (p : RuntimeParams) (now : Int)
    (energy : Rat) (startOk stopOk : Bool) (s : SessionState)
    (hvd : s.voice_detected = true) (he : p.energy_threshold < energy)
    (hl : p.maximum_word_length < s.current_word_length + frameMs g) :
    voice_detector_callback g p now energy startOk stopOk s =
      (let r := voice_detector_stop_recording now stopOk
          { s with total_frames := s.total_frames + 1,
                   consecutive_hits := 0,
                   current_word_length := s.current_word_length + frameMs g,
                   voice_detected := false }
       (r.1, ⟨r.2, false, true⟩)) := by
  simp [voice_detector_callback, hvd, he, hl]

/-! ## Claim C6 -/

/-- C6 counterexample: with `debounce_ms = 0` and `hits = 3`, BOTH frames
of a two-frame above-threshold run (voice still unconfirmed throughout)
dispatch a VoiceStart; the C code has no notion of "first frame of a run"
- every above-threshold idle frame attempts VoiceStart, gated only by the
debounce clock (lines 454-457). -/
theorem claim_C6_counterexample :
    ((runSteps ⟨160, 8000, 0⟩ { defaultParams with hits := 3 }
        [⟨1000000, mkRat 1 2, true, true⟩, ⟨2000000, mkRat 1 2, true, true⟩]
        initialState).2.map
        (fun o => o.events.countP Event.isVoiceStart)) = [1, 1] := by decide

/-- C6 (amended): while `voice_detected = false`, EVERY above-threshold
frame attempts a VoiceStart; it is dispatched exactly when strictly more
than `debounce_ms` milliseconds have elapsed since the debounce clock
(`last_api_call_time`), which a dispatch then updates to the frame time.
Consequently a later above-threshold frame of the same run emits no
VoiceStart while it falls inside the debounce window of the previous
dispatch, but a frame of the same run outside that window emits VoiceStart
again. -/
theorem claim_C6_voice_start_debounce_gated (g : Globals) (p : RuntimeParams)
    (now : Int) (energy : Rat) (startOk stopOk : Bool) (s : SessionState)
    (hvd : s.voice_detected = false) (he : p.energy_threshold < energy) :
    ((∃ x, Event.voiceStart x ∈
        (voice_detector_callback g p now energy startOk stopOk s).2.events) ↔
      g.debounce_ms * 1000 < now - s.last_api_call_time) ∧
    (g.debounce_ms * 1000 < now - s.last_api_call_time →
      (voice_detector_callback g p now energy startOk stopOk s).1.last_api_call_time
        = now) ∧
    (¬ (g.debounce_ms * 1000 < now - s.last_api_call_time) →
      (voice_detector_callback g p now energy startOk stopOk s).1.last_api_call_time
        = s.last_api_call_time) := by
  by_cases hdeb : g.debounce_ms * 1000 < now - s.last_api_call_time <;>
    by_cases hge : p.hits ≤ s.consecutive_hits + 1
  · rw [callback_above_confirm_deb g p now energy startOk stopOk s hvd he hge hdeb]
    refine ⟨iff_of_true ⟨payload energy, by simp⟩ hdeb, fun _ => by simp, fun h => absurd hdeb h⟩
  · rw [callback_above_noconfirm_deb g p now energy startOk stopOk s hvd he hge hdeb]
    refine ⟨iff_of_true ⟨payload energy, by simp⟩ hdeb, fun _ => rfl, fun h => absurd hdeb h⟩
  · rw [callback_above_confirm_nodeb g p now energy startOk stopOk s hvd he hge hdeb]
    refine ⟨iff_of_false ?_ hdeb, fun h => absurd h hdeb, fun _ => by simp⟩
    rintro ⟨x, hx⟩
    simp at hx
  · rw [callback_above_noconfirm_nodeb g p now energy startOk stopOk s hvd he hge hdeb]
    refine ⟨iff_of_false ?_ hdeb, fun h => absurd h hdeb, fun _ => rfl⟩
    rintro ⟨x, hx⟩
    simp at hx

/-- Witness for the amended C6 at the default configuration. -/
theorem claim_C6_witness :
    ((∃ x, Event.voiceStart x ∈
        (voice_detector_callback defaultGlobals defaultParams 1000000
          (mkRat 1 2) true true initialState).2.events) ↔
      defaultGlobals.debounce_ms * 1000 <
        1000000 - initialState.last_api_call_time) ∧
    (defaultGlobals.debounce_ms * 1000 <
        1000000 - initialState.last_api_call_time →
      (voice_detector_callback defaultGlobals defaultParams 1000000
        (mkRat 1 2) true true initialState).1.last_api_call_time = 1000000) ∧
    (¬ (defaultGlobals.debounce_ms * 1000 <
        1000000 - initialState.last_api_call_time) →
      (voice_detector_callback defaultGlobals defaultParams 1000000
        (mkRat 1 2) true true initialState).1.last_api_call_time =
        initialState.last_api_call_time) :=
  claim_C6_voice_start_debounce_gated defaultGlobals defaultParams 1000000
    (mkRat 1 2) true true initialState rfl (by decide)

/-- The debounce clock `last_api_call_time` influences nothing but itself
and the dispatched VoiceStart/VoiceEnd notifications: two states differing
only in that field evolve to states differing only in that field, with the
same recording directives and the same non-Voice notifications. -/
theorem callback_debounce_noninterference (g : Globals) (p : RuntimeParams)
    (now : Int) (energy : Rat) (startOk stopOk : Bool) (s : SessionState)
    (t : Int) :
    (voice_detector_callback g p now energy startOk stopOk
        { s with last_api_call_time := t }).1.voice_detected =
      (voice_detector_callback g p now energy startOk stopOk s).1.voice_detected ∧
    (voice_detector_callback g p now energy startOk stopOk
        { s with last_api_call_time := t }).1.consecutive_hits =
      (voice_detector_callback g p now energy startOk stopOk s).1.consecutive_hits ∧
    (voice_detector_callback g p now energy startOk stopOk
        { s with last_api_call_time := t }).1.silence_frames =
      (voice_detector_callback g p now energy startOk stopOk s).1.silence_frames ∧
    (voice_detector_callback g p now energy startOk stopOk
        { s with last_api_call_time := t }).1.current_word_length =
      (voice_detector_callback g p now energy startOk stopOk s).1.current_word_length ∧
    (voice_detector_callback g p now energy startOk stopOk
        { s with last_api_call_time := t }).1.word_start_time =
      (voice_detector_callback g p now energy startOk stopOk s).1.word_start_time ∧
    (voice_detector_callback g p now energy startOk stopOk
        { s with last_api_call_time := t }).1.word_end_time =
      (voice_detector_callback g p now energy startOk stopOk s).1.word_end_time ∧
    (voice_detector_callback g p now energy startOk stopOk
        { s with last_api_call_time := t }).1.last_voice_time =
      (voice_detector_callback g p now energy startOk stopOk s).1.last_voice_time ∧
    (voice_detector_callback g p now energy startOk stopOk
        { s with last_api_call_time := t }).1.total_frames =
      (voice_detector_callback g p now energy startOk stopOk s).1.total_frames ∧
    (voice_detector_callback g p now energy startOk stopOk
        { s with last_api_call_time := t }).1.is_recording =
      (voice_detector_callback g p now energy startOk stopOk s).1.is_recording ∧
    (voice_detector_callback g p now energy startOk stopOk
        { s with last_api_call_time := t }).1.record_session =
      (voice_detector_callback g p now energy startOk stopOk s).1.record_session ∧
    (voice_detector_callback g p now energy startOk stopOk
        { s with last_api_call_time := t }).1.recording_file =
      (voice_detector_callback g p now energy startOk stopOk s).1.recording_file ∧
    (voice_detector_callback g p now energy startOk stopOk
        { s with last_api_call_time := t }).1.recording_start_time =
      (voice_detector_callback g p now energy startOk stopOk s).1.recording_start_time ∧
    (voice_detector_callback g p now energy startOk stopOk
        { s with last_api_call_time := t }).1.recording_duration =
      (voice_detector_callback g p now energy startOk stopOk s).1.recording_duration ∧
    ((voice_detector_callback g p now energy startOk stopOk
        { s with last_api_call_time := t }).2.events.filter (fun e => !e.isVoice)) =
      ((voice_detector_callback g p now energy startOk stopOk s).2.events.filter
        (fun e => !e.isVoice)) ∧
    (voice_detector_callback g p now energy startOk stopOk
        { s with last_api_call_time := t }).2.startDirective =
      (voice_detector_callback g p now energy startOk stopOk s).2.startDirective ∧
    (voice_detector_callback g p now energy startOk stopOk
        { s with last_api_call_time := t }).2.stopDirective =
      (voice_detector_callback g p now energy startOk stopOk s).2.stopDirective := by
  simp only [voice_detector_callback, voice_detector_start_recording,
    voice_detector_stop_recording]
  split_ifs <;> simp_all [Event.isVoice]

/-- An above-threshold frame while voicing never dispatches a VoiceStart. -/
theorem callback_voicing_above_no_voice_start (g : Globals) (p : RuntimeParams)
    (now : Int) (energy : Rat) (startOk stopOk : Bool) (s : SessionState)
    (hvd : s.voice_detected = true) (he : p.energy_threshold < energy) :
    (voice_detector_callback g p now energy startOk stopOk s).2.events.countP
      Event.isVoiceStart = 0 := by
  by_cases hl : p.maximum_word_length < s.current_word_length + frameMs g
  · rw [callback_voicing_abort g p now energy startOk stopOk s hvd he hl]
    dsimp only
    simp
  · rw [callback_voicing_cont g p now energy startOk stopOk s hvd he hl]
    rfl

/-- An above-threshold idle frame inside the debounce window dispatches no
VoiceStart. -/
theorem callback_above_suppressed_no_voice_start (g : Globals)
    (p : RuntimeParams) (now : Int) (energy : Rat) (startOk stopOk : Bool)
    (s : SessionState) (hvd : s.voice_detected = false)
    (he : p.energy_threshold < energy)
    (hdeb : ¬ (g.debounce_ms * 1000 < now - s.last_api_call_time)) :
    (voice_detector_callback g p now energy startOk stopOk s).2.events.countP
      Event.isVoiceStart = 0 := by
  by_cases hge : p.hits ≤ s.consecutive_hits + 1
  · rw [callback_above_confirm_nodeb g p now energy startOk stopOk s hvd he hge hdeb]
    dsimp only
    simp
  · rw [callback_above_noconfirm_nodeb g p now energy startOk stopOk s hvd he hge hdeb]
    rfl

/-! ## Claim C7 -/

/-- C7: for a single session, a VoiceStart or VoiceEnd notification is
dispatched only if strictly more than `debounce_ms` have elapsed since the
session debounce clock (`last_api_call_time`, which records the last
dispatched Voice notification); two VoiceStart-eligible frames within the
window yield exactly one dispatched VoiceStart; and the RecordingStarted /
RecordingStopped / WordDetected notifications are never suppressed by the
debounce window (they do not depend on the debounce clock at all). -/
theorem claim_C7_debounce_policy :
    (∀ (g : Globals) (p : RuntimeParams) (now : Int) (energy : Rat)
        (startOk stopOk : Bool) (s : SessionState),
        ((∃ x, Event.voiceStart x ∈
            (voice_detector_callback g p now energy startOk stopOk s).2.events) ∨
         (∃ x, Event.voiceEnd x ∈
            (voice_detector_callback g p now energy startOk stopOk s).2.events)) →
        g.debounce_ms * 1000 < now - s.last_api_call_time) ∧
    (∀ (g : Globals) (p : RuntimeParams) (now : Int) (energy : Rat)
        (startOk stopOk : Bool) (s : SessionState) (t : Int),
        ((voice_detector_callback g p now energy startOk stopOk
            { s with last_api_call_time := t }).2.events.filter
          (fun e => !e.isVoice)) =
        ((voice_detector_callback g p now energy startOk stopOk s).2.events.filter
          (fun e => !e.isVoice))) ∧
    (∀ (g : Globals) (p : RuntimeParams) (f1 f2 : FrameIn) (s : SessionState),
        s.voice_detected = false →
        p.energy_threshold < f1.energy → p.energy_threshold < f2.energy →
        g.debounce_ms * 1000 < f1.now - s.last_api_call_time →
        f2.now - f1.now ≤ g.debounce_ms * 1000 →
        ((runSteps g p [f1, f2] s).2.map
            (fun o => o.events.countP Event.isVoiceStart)).sum = 1) := by
  refine ⟨?_, ?_, ?_⟩
  · intro g p now energy startOk stopOk s h
    rcases h with ⟨x, hx⟩ | ⟨x, hx⟩ <;>
    · simp only [voice_detector_callback] at hx
      split_ifs at hx <;> simp_all
  · intro g p now energy startOk stopOk s t
    exact (callback_debounce_noninterference g p now energy startOk stopOk s
      t).2.2.2.2.2.2.2.2.2.2.2.2.2.1
  · intro g p f1 f2 s hvd he1 he2 hdeb1 hwin
    rw [runSteps_cons, runSteps_cons, runSteps_nil]
    dsimp only [List.map_cons, List.map_nil, List.sum_cons, List.sum_nil]
    by_cases hge : p.hits ≤ s.consecutive_hits + 1
    · rw [callback_above_confirm_deb g p f1.now f1.energy f1.startOk f1.stopOk s
        hvd he1 hge hdeb1]
      dsimp only
      have hc1 : (Event.voiceStart (payload f1.energy) ::
          (voice_detector_start_recording p f1.now f1.startOk
            { s with total_frames := s.total_frames + 1,
                     consecutive_hits := s.consecutive_hits + 1,
                     last_api_call_time := f1.now, voice_detected := true,
                     last_voice_time := f1.now, silence_frames := 0,
                     word_start_time := f1.now,
                     current_word_length := 0 }).2).countP Event.isVoiceStart = 1 := by
        rw [List.countP_cons]
        simp [Event.isVoiceStart]
      rw [hc1]
      have hc2 := callback_voicing_above_no_voice_start g p f2.now f2.energy
        f2.startOk f2.stopOk
        (voice_detector_start_recording p f1.now f1.startOk
          { s with total_frames := s.total_frames + 1,
                   consecutive_hits := s.consecutive_hits + 1,
                   last_api_call_time := f1.now, voice_detected := true,
                   last_voice_time := f1.now, silence_frames := 0,
                   word_start_time := f1.now, current_word_length := 0 }).1
        (by simp) he2
      rw [hc2]
      omega
    · rw [callback_above_noconfirm_deb g p f1.now f1.energy f1.startOk f1.stopOk s
        hvd he1 hge hdeb1]
      dsimp only
      have hc1 : ([Event.voiceStart (payload f1.energy)]).countP
          Event.isVoiceStart = 1 := by
        simp [Event.isVoiceStart]
      rw [hc1]
      have hc2 := callback_above_suppressed_no_voice_start g p f2.now f2.energy
        f2.startOk f2.stopOk
        { s with total_frames := s.total_frames + 1,
                 consecutive_hits := s.consecutive_hits + 1,
                 last_api_call_time := f1.now }
        hvd he2 (by dsimp only; omega)
      rw [hc2]
      omega

/-- Witness for C7 at the default configuration: a dispatched VoiceStart
forces the debounce inequality; the non-Voice filter is insensitive to the
clock; and two eligible frames 20 ms apart dispatch exactly one
VoiceStart. -/
theorem claim_C7_witness :
    ((( ∃ x, Event.voiceStart x ∈
        (voice_detector_callback defaultGlobals defaultParams 1000000
          (mkRat 1 2) true true initialState).2.events) ∨
      (∃ x, Event.voiceEnd x ∈
        (voice_detector_callback defaultGlobals defaultParams 1000000
          (mkRat 1 2) true true initialState).2.events)) →
      defaultGlobals.debounce_ms * 1000 <
        1000000 - initialState.last_api_call_time) ∧
    ((voice_detector_callback defaultGlobals defaultParams 1000000
        (mkRat 1 2) true true
        { initialState with last_api_call_time := 999999 }).2.events.filter
      (fun e => !e.isVoice)) =
      ((voice_detector_callback defaultGlobals defaultParams 1000000
        (mkRat 1 2) true true initialState).2.events.filter
        (fun e => !e.isVoice)) ∧
    ((runSteps defaultGlobals defaultParams
        [⟨1000000, mkRat 1 2, true, true⟩, ⟨1020000, mkRat 1 2, true, true⟩]
        initialState).2.map
        (fun o => o.events.countP Event.isVoiceStart)).sum = 1 :=
  ⟨claim_C7_debounce_policy.1 defaultGlobals defaultParams 1000000 (mkRat 1 2)
      true true initialState,
   claim_C7_debounce_policy.2.1 defaultGlobals defaultParams 1000000
      (mkRat 1 2) true true initialState 999999,
   claim_C7_debounce_policy.2.2 defaultGlobals defaultParams
      ⟨1000000, mkRat 1 2, true, true⟩ ⟨1020000, mkRat 1 2, true, true⟩
      initialState rfl (by decide) (by decide) (by decide) (by decide)⟩

/-! ## Claim C10 -/

/-- C10: the detection-state evolution and the recording directives are
independent of the notification throttle: for every frame, the value of
the debounce clock `last_api_call_time` has no effect on the updates to
`voice_detected`, `consecutive_hits`, `silence_frames`,
`current_word_length` (nor any other state field except the clock itself),
nor on whether a start- or stop-recording directive is issued; only the
clock and the dispatched Voice notifications can differ between a
suppressed and an unsuppressed run. -/
theorem claim_C10_throttle_noninterference (g : Globals) (p : RuntimeParams)
    (now : Int) (energy : Rat) (startOk stopOk : Bool) (s : SessionState)
    (t : Int) :
    (voice_detector_callback g p now energy startOk stopOk
        { s with last_api_call_time := t }).1.voice_detected =
      (voice_detector_callback g p now energy startOk stopOk s).1.voice_detected ∧
    (voice_detector_callback g p now energy startOk stopOk
        { s with last_api_call_time := t }).1.consecutive_hits =
      (voice_detector_callback g p now energy startOk stopOk s).1.consecutive_hits ∧
    (voice_detector_callback g p now energy startOk stopOk
        { s with last_api_call_time := t }).1.silence_frames =
      (voice_detector_callback g p now energy startOk stopOk s).1.silence_frames ∧
    (voice_detector_callback g p now energy startOk stopOk
        { s with last_api_call_time := t }).1.current_word_length =
      (voice_detector_callback g p now energy startOk stopOk s).1.current_word_length ∧
    (voice_detector_callback g p now energy startOk stopOk
        { s with last_api_call_time := t }).1.word_start_time =
      (voice_detector_callback g p now energy startOk stopOk s).1.word_start_time ∧
    (voice_detector_callback g p now energy startOk stopOk
        { s with last_api_call_time := t }).1.word_end_time =
      (voice_detector_callback g p now energy startOk stopOk s).1.word_end_time ∧
    (voice_detector_callback g p now energy startOk stopOk
        { s with last_api_call_time := t }).1.last_voice_time =
      (voice_detector_callback g p now energy startOk stopOk s).1.last_voice_time ∧
    (voice_detector_callback g p now energy startOk stopOk
        { s with last_api_call_time := t }).1.total_frames =
      (voice_detector_callback g p now energy startOk stopOk s).1.total_frames ∧
    (voice_detector_callback g p now energy startOk stopOk
        { s with last_api_call_time := t }).1.is_recording =
      (voice_detector_callback g p now energy startOk stopOk s).1.is_recording ∧
    (voice_detector_callback g p now energy startOk stopOk
        { s with last_api_call_time := t }).1.record_session =
      (voice_detector_callback g p now energy startOk stopOk s).1.record_session ∧
    (voice_detector_callback g p now energy startOk stopOk
        { s with last_api_call_time := t }).1.recording_file =
      (voice_detector_callback g p now energy startOk stopOk s).1.recording_file ∧
    (voice_detector_callback g p now energy startOk stopOk
        { s with last_api_call_time := t }).1.recording_start_time =
      (voice_detector_callback g p now energy startOk stopOk s).1.recording_start_time ∧
    (voice_detector_callback g p now energy startOk stopOk
        { s with last_api_call_time := t }).1.recording_duration =
      (voice_detector_callback g p now energy startOk stopOk s).1.recording_duration ∧
    ((voice_detector_callback g p now energy startOk stopOk
        { s with last_api_call_time := t }).2.events.filter (fun e => !e.isVoice)) =
      ((voice_detector_callback g p now energy startOk stopOk s).2.events.filter
        (fun e => !e.isVoice)) ∧
    (voice_detector_callback g p now energy startOk stopOk
        { s with last_api_call_time := t }).2.startDirective =
      (voice_detector_callback g p now energy startOk stopOk s).2.startDirective ∧
    (voice_detector_callback g p now energy startOk stopOk
        { s with last_api_call_time := t }).2.stopDirective =
      (voice_detector_callback g p now energy startOk stopOk s).2.stopDirective :=
  callback_debounce_noninterference g p now energy startOk stopOk s t

/-! ## Claim C8 -/

/-- C8 counterexample: when the external stop facility fails, the C code
returns early (line 404) WITHOUT clearing `is_recording` or the recording
session handle - the claim asserts the local recording-intent state is
cleared even on failure. -/
theorem claim_C8_counterexample :
    (voice_detector_stop_recording 5000000 false
      { initialState with
          is_recording := true, record_session := true,
          recording_file := true, recording_start_time := 1000000 }).1.is_recording
      = true ∧
    (voice_detector_stop_recording 5000000 false
      { initialState with
          is_recording := true, record_session := true,
          recording_file := true, recording_start_time := 1000000 }).1.record_session
      = true := by decide

/-- C8 (amended): for every recording session with `is_recording = true`
and a live recording-session handle, the stop operation computes the
duration since `recording_start_time` and stores it in
`recording_duration` BEFORE invoking the external stop facility (so it is
stored regardless of the outcome); on success it clears `is_recording`
and the handle and emits a RecordingStopped notification carrying the
duration; on failure it returns the error WITHOUT clearing the local
recording-intent state and emits nothing. -/
theorem claim_C8_stop_recording_failure (now : Int) (stopOk : Bool)
    (s : SessionState) (hrec : s.is_recording = true)
    (hrs : s.record_session = true) :
    (voice_detector_stop_recording now stopOk s).1.recording_duration =
      (now - s.recording_start_time).tdiv 1000000 ∧
    (stopOk = true →
      (voice_detector_stop_recording now stopOk s).1.is_recording = false ∧
      (voice_detector_stop_recording now stopOk s).1.record_session = false ∧
      (voice_detector_stop_recording now stopOk s).2 =
        [Event.recordingStopped ((now - s.recording_start_time).tdiv 1000000)]) ∧
    (stopOk = false →
      (voice_detector_stop_recording now stopOk s).1.is_recording = true ∧
      (voice_detector_stop_recording now stopOk s).1.record_session = true ∧
      (voice_detector_stop_recording now stopOk s).2 = []) := by
  unfold voice_detector_stop_recording
  rcases stopOk with _ | _ <;> simp [hrec, hrs]

/-- Witness for the amended C8: a failing stop at 5 s into a recording
started at 1 s leaves the local recording state set, with the 4 s duration
already stored. -/
theorem claim_C8_witness :
    (voice_detector_stop_recording 5000000 false
      { initialState with
          is_recording := true, record_session := true,
          recording_file := true, recording_start_time := 1000000 }).1.recording_duration
      = (5000000 - ({ initialState with
          is_recording := true, record_session := true,
          recording_file := true, recording_start_time := 1000000 } :
            SessionState).recording_start_time).tdiv 1000000 ∧
    (false = true →
      (voice_detector_stop_recording 5000000 false
        { initialState with
            is_recording := true, record_session := true,
            recording_file := true, recording_start_time := 1000000 }).1.is_recording
        = false ∧
      (voice_detector_stop_recording 5000000 false
        { initialState with
            is_recording := true, record_session := true,
            recording_file := true, recording_start_time := 1000000 }).1.record_session
        = false ∧
      (voice_detector_stop_recording 5000000 false
        { initialState with
            is_recording := true, record_session := true,
            recording_file := true, recording_start_time := 1000000 }).2 =
        [Event.recordingStopped ((5000000 - ({ initialState with
            is_recording := true, record_session := true,
            recording_file := true, recording_start_time := 1000000 } :
              SessionState).recording_start_time).tdiv 1000000)]) ∧
    (false = false →
      (voice_detector_stop_recording 5000000 false
        { initialState with
            is_recording := true, record_session := true,
            recording_file := true, recording_start_time := 1000000 }).1.is_recording
        = true ∧
      (voice_detector_stop_recording 5000000 false
        { initialState with
            is_recording := true, record_session := true,
            recording_file := true, recording_start_time := 1000000 }).1.record_session
        = true ∧
      (voice_detector_stop_recording 5000000 false
        { initialState with
            is_recording := true, record_session := true,
            recording_file := true, recording_start_time := 1000000 }).2 = []) :=
  claim_C8_stop_recording_failure 5000000 false
    { initialState with
        is_recording := true, record_session := true,
        recording_file := true, recording_start_time := 1000000 }
    rfl rfl

/-! ## Claim C9 -/

theorem sumSquares_nonneg (frame : List Int) : 0 ≤ sumSquares frame := by
  unfold sumSquares
  induction frame with
  | nil => simp
  | cons x xs ih =>
      simp only [List.map_cons, List.sum_cons]
      have := mul_self_nonneg x
      omega

theorem sumSquares_le (frame : List Int)
    (hlo : ∀ x ∈ frame, -32768 ≤ x) (hhi : ∀ x ∈ frame, x ≤ 32767) :
    sumSquares frame ≤ 1073741824 * (frame.length : Int) := by
  unfold sumSquares
  induction frame with
  | nil => simp
  | cons x xs ih =>
      simp only [List.map_cons, List.sum_cons, List.length_cons]
      have h1 : -32768 ≤ x := hlo x (List.mem_cons_self x xs)
      have h2 : x ≤ 32767 := hhi x (List.mem_cons_self x xs)
      have h3 : x * x ≤ 1073741824 := by nlinarith
      have h4 : (xs.map (fun x => x * x)).sum ≤ 1073741824 * (xs.length : Int) :=
        ih (fun y hy => hlo y (List.mem_cons_of_mem x hy))
          (fun y hy => hhi y (List.mem_cons_of_mem x hy))
      push_cast
      linarith

theorem sumSquares_zero (frame : List Int) (h : ∀ x ∈ frame, x = 0) :
    sumSquares frame = 0 := by
  unfold sumSquares
  induction frame with
  | nil => simp
  | cons x xs ih =>
      simp only [List.map_cons, List.sum_cons]
      rw [h x (List.mem_cons_self x xs)]
      rw [ih (fun y hy => h y (List.mem_cons_of_mem x hy))]
      simp

theorem sumSquares_fullscale (frame : List Int)
    (h : ∀ x ∈ frame, x = -32768) :
    sumSquares frame = 1073741824 * (frame.length : Int) := by
  unfold sumSquares
  induction frame with
  | nil => simp
  | cons x xs ih =>
      simp only [List.map_cons, List.sum_cons, List.length_cons]
      rw [h x (List.mem_cons_self x xs)]
      rw [ih (fun y hy => h y (List.mem_cons_of_mem x hy))]
      push_cast
      ring

/-- C9: for every non-empty frame of signed 16-bit PCM samples, the energy
score equals the root-mean-square of the sample values divided by the
maximum representable 16-bit magnitude (32768), lies in [0,1], is
monotonic in the frame root-mean-square amplitude, is 0 for an all-zero
frame, and is 1 for a full-scale frame (samples at magnitude 32768). -/
theorem claim_C9_energy_score (frame : List Int) (hne : frame ≠ [])
    (hlo : ∀ x ∈ frame, -32768 ≤ x) (hhi : ∀ x ∈ frame, x ≤ 32767) :
    energyScore frame =
      Real.sqrt ((sumSquares frame : ℝ) / (frame.length : ℝ)) / 32768 ∧
    0 ≤ energyScore frame ∧ energyScore frame ≤ 1 ∧
    (∀ gframe : List Int,
       Real.sqrt ((sumSquares frame : ℝ) / (frame.length : ℝ)) ≤
         Real.sqrt ((sumSquares gframe : ℝ) / (gframe.length : ℝ)) →
       energyScore frame ≤ energyScore gframe) ∧
    ((∀ x ∈ frame, x = 0) → energyScore frame = 0) ∧
    ((∀ x ∈ frame, x = -32768) → energyScore frame = 1) := by
  have hlen : 0 < (frame.length : ℝ) := by
    have := List.length_pos.mpr hne
    exact_mod_cast this
  refine ⟨rfl, ?_, ?_, ?_, ?_, ?_⟩
  · unfold energyScore
    positivity
  · unfold energyScore
    have hsum : (sumSquares frame : ℝ) ≤ 1073741824 * (frame.length : ℝ) := by
      have := sumSquares_le frame hlo hhi
      exact_mod_cast this
    have hmean : (sumSquares frame : ℝ) / (frame.length : ℝ) ≤ 1073741824 := by
      rw [div_le_iff₀ hlen]
      linarith
    have hsqrt : Real.sqrt ((sumSquares frame : ℝ) / (frame.length : ℝ)) ≤
        32768 := by
      have h3 : (1073741824 : ℝ) = 32768 ^ 2 := by norm_num
      calc Real.sqrt ((sumSquares frame : ℝ) / (frame.length : ℝ))
          ≤ Real.sqrt 1073741824 := Real.sqrt_le_sqrt hmean
        _ = 32768 := by rw [h3, Real.sqrt_sq (by norm_num : (0:ℝ) ≤ 32768)]
    rw [div_le_one (by norm_num : (0:ℝ) < 32768)]
    exact hsqrt
  · intro gframe h
    unfold energyScore
    gcongr
  · intro h0
    unfold energyScore
    rw [sumSquares_zero frame h0]
    simp
  · intro hfull
    unfold energyScore
    rw [sumSquares_fullscale frame hfull]
    have hne0 : (frame.length : ℝ) ≠ 0 := ne_of_gt hlen
    have hmean : ((1073741824 * (frame.length : Int) : Int) : ℝ) /
        (frame.length : ℝ) = 1073741824 := by
      push_cast
      field_simp
    rw [hmean]
    have h3 : (1073741824 : ℝ) = 32768 ^ 2 := by norm_num
    rw [h3, Real.sqrt_sq (by norm_num : (0:ℝ) ≤ 32768)]
    norm_num

/-- Witness for C9 at the one-sample full-scale frame. -/
theorem claim_C9_witness :
    energyScore [-32768] = 1 ∧ 0 ≤ energyScore [-32768] ∧
    energyScore [-32768] ≤ 1 ∧
    energyScore [-32768] =
      Real.sqrt ((sumSquares [-32768] : ℝ) / (([-32768] : List Int).length : ℝ)) /
        32768 :=
  have h := claim_C9_energy_score [-32768] (by simp) (by simp) (by simp)
  ⟨h.2.2.2.2.2 (by simp), h.2.1, h.2.2.1, h.1⟩

end VoiceDetector
